import Mathlib

/-!
Verification development for the feather-tft-clock interaction core
(src/statemachine.py and src/code.py).

The state machine edits the RTC wall-clock value through calendar-aware
date arithmetic: it converts the RTC `struct_time` to epoch seconds with
`time.mktime`, adds a `timedelta`, and converts back with
`adafruit_datetime.datetime.fromtimestamp(...).timetuple()`.  Those two
external collaborators implement standard proleptic-Gregorian epoch
arithmetic (the `_ymd2ord` / `_ord2ymd` algorithms of CPython's
`datetime` module, which `adafruit_datetime` copies); they are embedded
here as `ymd2ord`, `ord2ymd`, `mktime` and `fromtimestamp`.
-/

/-- Days in each month for a non-leap year (`_DAYS_IN_MONTH` table of
`adafruit_datetime`); 0 for an out-of-range month index. -/
def DAYS_IN_MONTH (m : Nat) : Nat :=
  match m with
  | 1 => 31 | 2 => 28 | 3 => 31 | 4 => 30 | 5 => 31 | 6 => 30
  | 7 => 31 | 8 => 31 | 9 => 30 | 10 => 31 | 11 => 30 | 12 => 31
  | _ => 0

/-- Cumulative days before each month in a non-leap year
(`_DAYS_BEFORE_MONTH` table of `adafruit_datetime`). -/
def DAYS_BEFORE_MONTH (m : Nat) : Nat :=
  match m with
  | 1 => 0 | 2 => 31 | 3 => 59 | 4 => 90 | 5 => 120 | 6 => 151
  | 7 => 181 | 8 => 212 | 9 => 243 | 10 => 273 | 11 => 304 | 12 => 334
  | _ => 0

/-- Gregorian leap-year test (`_is_leap` of `adafruit_datetime`). -/
def is_leap (year : Nat) : Bool :=
  year % 4 == 0 && (year % 100 != 0 || year % 400 == 0)

/-- Days in a month of a given year (`_days_in_month`). -/
def days_in_month (year month : Nat) : Nat :=
  if month == 2 && is_leap year then 29 else DAYS_IN_MONTH month

/-- Days before January 1st of `year`, counting from the proleptic
Gregorian ordinal origin 0001-01-01 = ordinal 1 (`_days_before_year`). -/
def days_before_year (year : Nat) : Nat :=
  let y := year - 1
  y * 365 + y / 4 - y / 100 + y / 400

/-- Proleptic Gregorian ordinal of a date (`_ymd2ord`):
0001-01-01 has ordinal 1. -/
def ymd2ord (year month day : Nat) : Nat :=
  days_before_year year + DAYS_BEFORE_MONTH month
    + (if 2 < month && is_leap year then 1 else 0) + day

/-- Inverse of `ymd2ord` (`_ord2ymd` of CPython / `adafruit_datetime`):
ordinal to (year, month, day). -/
def ord2ymd (nn : Nat) : Nat × Nat × Nat :=
  let n := nn - 1
  let n400 := n / 146097
  let n := n % 146097
  let n100 := n / 36524
  let n := n % 36524
  let n4 := n / 1461
  let n := n % 1461
  let n1 := n / 365
  let n := n % 365
  let year := n400 * 400 + 1 + n100 * 100 + n4 * 4 + n1
  if n1 == 4 || n100 == 4 then
    (year - 1, 12, 31)
  else
    let leapyear := n1 == 3 && (n4 != 24 || n100 == 3)
    let month := (n + 50) / 32
    let preceding := DAYS_BEFORE_MONTH month
      + (if 2 < month && leapyear then 1 else 0)
    if n < preceding then
      let month' := month - 1
      let preceding' := preceding
        - (DAYS_IN_MONTH month' + (if month' == 2 && leapyear then 1 else 0))
      (year, month', n - preceding' + 1)
    else
      (year, month, n - preceding + 1)

/-- The six time fields of a CircuitPython `struct_time` snapshot that the
clock reads from and writes to the RTC (`tm_wday`/`tm_yday`/`tm_isdst`
are derived or ignored by the PCF8523 driver and carry no information). -/
structure StructTime where
  tm_year : Nat
  tm_mon : Nat
  tm_mday : Nat
  tm_hour : Nat
  tm_min : Nat
  tm_sec : Nat
deriving DecidableEq

/-- Ordinal of the Unix epoch 1970-01-01, so `EPOCH_ORD = ymd2ord 1970 1 1`. -/
def EPOCH_ORD : Nat := 719163

/-- Embedding of `time.mktime` on a (UTC) `struct_time`: seconds since 1970-01-01. -/
def mktime (st : StructTime) : Int :=
  ((ymd2ord st.tm_year st.tm_mon st.tm_mday : Int) - EPOCH_ORD) * 86400
    + st.tm_hour * 3600 + st.tm_min * 60 + st.tm_sec

/-- Embedding of `datetime.fromtimestamp(t).timetuple()`: epoch seconds back to the six
`struct_time` fields.  The clock only ever forms non-negative timestamps
(years 2001..2038), where Python floor division agrees with the `Nat`
division used here after `Int.toNat`. -/
def fromtimestamp (t : Int) : StructTime :=
  let tn := t.toNat
  let days := tn / 86400
  let rem := tn % 86400
  let o := days + EPOCH_ORD
  ⟨(ord2ymd o).1, (ord2ymd o).2.1, (ord2ymd o).2.2,
   rem / 3600, rem % 3600 / 60, rem % 60⟩

/-- Time-of-day in seconds of a `struct_time`. -/
def tod (st : StructTime) : Nat :=
  st.tm_hour * 3600 + st.tm_min * 60 + st.tm_sec

/-- Calendar validity of a wall-clock snapshot, with the year bounded to
the range [2001, 2037] that the clock's own clamping enforces (PCF8523
minimum year and the 32-bit 2038 rollover, per the source comments). -/
def validSt (st : StructTime) : Prop :=
  2001 ≤ st.tm_year ∧ st.tm_year ≤ 2037 ∧
  1 ≤ st.tm_mon ∧ st.tm_mon ≤ 12 ∧
  1 ≤ st.tm_mday ∧ st.tm_mday ≤ days_in_month st.tm_year st.tm_mon ∧
  st.tm_hour ≤ 23 ∧ st.tm_min ≤ 59 ∧ st.tm_sec ≤ 59

instance (st : StructTime) : Decidable (validSt st) := by
  unfold validSt; infer_instance

/-! ## State machine (src/statemachine.py) -/

namespace SM

/-- State constant `_HHMM` (row 0 of the table). -/
def HHMM : Nat := 0
/-- State constant `_MMSS`. -/
def MMSS : Nat := 1
/-- State constant `_SetYr`. -/
def SetYr : Nat := 2
/-- State constant `_SetMDay`. -/
def SetMDay : Nat := 3
/-- State constant `_SetHour`. -/
def SetHour : Nat := 4
/-- State constant `_SetHMin`. -/
def SetHMin : Nat := 5
/-- State constant `_SetSec`. -/
def SetSec : Nat := 6
/-- Action constant `_NOP`. -/
def NOP : Nat := 7
/-- Action constant `_YrInc`. -/
def YrInc : Nat := 8
/-- Action constant `_YrDec`. -/
def YrDec : Nat := 9
/-- Action constant `_DayInc`. -/
def DayInc : Nat := 10
/-- Action constant `_DayDec`. -/
def DayDec : Nat := 11
/-- Action constant `_HrInc`. -/
def HrInc : Nat := 12
/-- Action constant `_HrDec`. -/
def HrDec : Nat := 13
/-- Action constant `_MinInc`. -/
def MinInc : Nat := 14
/-- Action constant `_MinDec`. -/
def MinDec : Nat := 15
/-- Action constant `_Sec00`. -/
def Sec00 : Nat := 16

/-- Button press constant `StateMachine.UP` (column 0 of the table). -/
def UP : Nat := 0
/-- Button press constant `StateMachine.DOWN`. -/
def DOWN : Nat := 1
/-- Button press constant `StateMachine.LEFT`. -/
def LEFT : Nat := 2
/-- Button press constant `StateMachine.RIGHT`. -/
def RIGHT : Nat := 3
/-- Button press constant `StateMachine.A`. -/
def A : Nat := 4
/-- Button press constant `StateMachine.B`. -/
def B : Nat := 5
/-- Button press constant `StateMachine.START`. -/
def START : Nat := 6

/-- Table `StateMachine._TABLE`: response code for each (state row, button column). -/
def TABLE : List (List Nat) := [
  [NOP,    NOP,    MMSS,    MMSS,    NOP,     HHMM, SetHMin],
  [NOP,    NOP,    HHMM,    HHMM,    NOP,     HHMM, SetHMin],
  [YrInc,  YrDec,  SetSec,  SetMDay, SetMDay, HHMM, HHMM   ],
  [DayInc, DayDec, SetYr,   SetHour, SetHour, HHMM, HHMM   ],
  [HrInc,  HrDec,  SetMDay, SetHMin, SetHMin, HHMM, HHMM   ],
  [MinInc, MinDec, SetHour, SetSec,  SetSec,  HHMM, HHMM   ],
  [Sec00,  Sec00,  SetHMin, SetYr,   SetYr,   HHMM, HHMM   ]]

end SM

/-- The table lookup `self._TABLE[state][button]`, as a failable lookup so
that totality (claim C4) is a real statement. -/
def transition (state button : Nat) : Option Nat :=
  match SM.TABLE.get? state with
  | some row => row.get? button
  | none => none

/-- Clamped year-increment step (`_YrInc` branch of `handleGamepad`):
`n = 5 if repeat else 1`, clamped so `year + n` does not exceed 2037. -/
def yrIncN (rpt : Bool) (year : Nat) : Int :=
  let n : Int := if rpt then 5 else 1
  if (year : Int) + n > 2037 then 2037 - (year : Int) else n

/-- Clamped year-decrement step (`_YrDec` branch):
`n = -5 if repeat else -1`, clamped so `year + n` is not below 2001. -/
def yrDecN (rpt : Bool) (year : Nat) : Int :=
  let n : Int := if rpt then -5 else -1
  if (year : Int) + n < 2001 then 2001 - (year : Int) else n

/-- Clamped day-increment step (`_DayInc` branch): `n = 10 if repeat else 1`,
clamped only when the month is December and the step would pass Dec 31. -/
def dayIncN (rpt : Bool) (month day : Nat) : Int :=
  let n : Int := if rpt then 10 else 1
  if month = 12 ∧ (day : Int) + n > 31 then 31 - (day : Int) else n

/-- Clamped day-decrement step (`_DayDec` branch): `n = -10 if repeat else -1`,
clamped only when the month is January and the step would pass Jan 1. -/
def dayDecN (rpt : Bool) (month day : Nat) : Int :=
  let n : Int := if rpt then -10 else -1
  if month = 1 ∧ (day : Int) + n < 1 then 1 - (day : Int) else n

/-- Clamped hour-increment step (`_HrInc` branch): `n = 4 if repeat else 1`,
clamped so `hour + n` does not pass 23. -/
def hrIncN (rpt : Bool) (hour : Nat) : Int :=
  let n : Int := if rpt then 4 else 1
  if (hour : Int) + n > 23 then 23 - (hour : Int) else n

/-- Clamped hour-decrement step (`_HrDec` branch): `n = -4 if repeat else -1`,
clamped so `hour + n` does not pass 0. -/
def hrDecN (rpt : Bool) (hour : Nat) : Int :=
  let n : Int := if rpt then -4 else -1
  if (hour : Int) + n < 0 then 0 - (hour : Int) else n

/-- Clamped minute-increment step (`_MinInc` branch): `n = 10 if repeat else 1`,
clamped only when the hour is 23 and the step would pass 23:59. -/
def minIncN (rpt : Bool) (hour min_ : Nat) : Int :=
  let n : Int := if rpt then 10 else 1
  if hour = 23 ∧ (min_ : Int) + n > 59 then 59 - (min_ : Int) else n

/-- Clamped minute-decrement step (`_MinDec` branch): `n = -10 if repeat else -1`,
clamped only when the hour is 0 and the step would pass 00:00. -/
def minDecN (rpt : Bool) (hour min_ : Nat) : Int :=
  let n : Int := if rpt then -10 else -1
  if hour = 0 ∧ (min_ : Int) + n < 0 then 0 - (min_ : Int) else n

/-- Seconds delta of the `_Sec00` branch:
`delta = -(sec) if (sec <= 30) else (60-sec)`. -/
def sec00Delta (sec : Nat) : Int :=
  if sec ≤ 30 then -(sec : Int) else 60 - (sec : Int)

/-- Seconds of `timedelta(days=n)`. -/
def timedeltaDays (n : Int) : Int := n * 86400
/-- Seconds of `timedelta(hours=n)`. -/
def timedeltaHours (n : Int) : Int := n * 3600
/-- Seconds of `timedelta(minutes=n)`. -/
def timedeltaMinutes (n : Int) : Int := n * 60
/-- Seconds of `timedelta(seconds=n)`. -/
def timedeltaSeconds (n : Int) : Int := n

/-- The "Third" branch of `handleGamepad` (response codes that modify the
RTC date or time): reads `st = rtc.datetime`, forms
`now = datetime.fromtimestamp(mktime(st))`, adds the per-action clamped
`timedelta` and returns the `timetuple` written back to the RTC.
Returns `none` when no `elif` arm matches the response code (then the
Python code performs no RTC write). -/
def applyAction (r : Nat) (rpt : Bool) (st : StructTime) : Option StructTime :=
  let now := mktime st
  if r = SM.YrInc then
    some (fromtimestamp (now + timedeltaDays (yrIncN rpt st.tm_year * 365)))
  else if r = SM.YrDec then
    some (fromtimestamp (now + timedeltaDays (yrDecN rpt st.tm_year * 365)))
  else if r = SM.DayInc then
    some (fromtimestamp (now + timedeltaDays (dayIncN rpt st.tm_mon st.tm_mday)))
  else if r = SM.DayDec then
    some (fromtimestamp (now + timedeltaDays (dayDecN rpt st.tm_mon st.tm_mday)))
  else if r = SM.HrInc then
    some (fromtimestamp (now + timedeltaHours (hrIncN rpt st.tm_hour)))
  else if r = SM.HrDec then
    some (fromtimestamp (now + timedeltaHours (hrDecN rpt st.tm_hour)))
  else if r = SM.MinInc then
    some (fromtimestamp (now + timedeltaMinutes (minIncN rpt st.tm_hour st.tm_min)))
  else if r = SM.MinDec then
    some (fromtimestamp (now + timedeltaMinutes (minDecN rpt st.tm_hour st.tm_min)))
  else if r = SM.Sec00 then
    some (fromtimestamp (now + timedeltaSeconds (sec00Delta st.tm_sec)))
  else
    none

/-- String `SET_HELP` (`\x7f` is the up/down-arrows sprite). -/
def SET_HELP : String := "\x7f:+/-  B:Exit  A:OK"
/-- String `SET_HELP_SEC`. -/
def SET_HELP_SEC : String := "\x7f:=00  B:Exit  A:OK"

/-- Observable outcome of one `StateMachine.handleGamepad` call:
the new value of `self.state`, the `charLCD.setMsg(text, top)` calls made
(in order), whether `rtc.datetime` was read, and the value written back to
`rtc.datetime` (if any). -/
structure GamepadResult where
  state : Nat
  msgs : List (String × Bool)
  rtcRead : Bool
  rtcWrite : Option StructTime
deriving DecidableEq

/-- Embedding of `StateMachine.handleGamepad(button, repeat)` from menu state `state`
with RTC value `st`. -/
def handleGamepad (state button : Nat) (rpt : Bool) (st : StructTime) :
    GamepadResult :=
  if button < SM.UP ∨ SM.START < button then
    ⟨state, [], false, none⟩
  else
    match transition state button with
    | none => ⟨state, [], false, none⟩
    | some r =>
      if r = SM.HHMM then
        ⟨r, [("", true), ("", false)], false, none⟩
      else if r = SM.MMSS then
        ⟨r, [("", true), ("", false)], false, none⟩
      else if r = SM.SetYr then
        ⟨r, [("   SET       YEAR", true), (SET_HELP, false)], false, none⟩
      else if r = SM.SetMDay then
        ⟨r, [("   SET  MONTH-DAY", true), (SET_HELP, false)], false, none⟩
      else if r = SM.SetHour then
        ⟨r, [("   SET       HOUR", true), (SET_HELP, false)], false, none⟩
      else if r = SM.SetHMin then
        ⟨r, [("   SET    MINUTES", true), (SET_HELP, false)], false, none⟩
      else if r = SM.SetSec then
        ⟨r, [("   SET    SECONDS", true), (SET_HELP_SEC, false)], false, none⟩
      else if r = SM.NOP then
        ⟨state, [], false, none⟩
      else
        ⟨state, [], true, applyAction r rpt st⟩

/-! ## Main loop (src/code.py) -/

/-- Function `elapsed_ms(prev, now)` of src/code.py: `(now - prev) & MASK` with
`MASK = 0x3fffffff`.  For the all-ones mask `0x3fffffff = 2^30 - 1`,
Python's bitwise AND on (possibly negative) ints is reduction mod `2^30`. -/
def elapsed_ms (prev now : Int) : Int :=
  (now - prev) % 1073741824

/-- Modelled from the spec: the timing source (`supervisor.ticks_ms`,
provided by the CircuitPython runtime, not under src/) is a monotonic
millisecond counter that wraps at the fixed power-of-two modulus `2^29`. -/
def ticks_wrap (t : Nat) : Nat := t % 536870912

namespace Pad

/-- Modelled from the spec: logical button bitmask `UP` exported by
gamepad.py (repository code not under src/); the bitmasks are distinct
single bits of the 16-bit XInput-style button word. -/
def UP : Nat := 0x0001
/-- Modelled from the spec: logical button bitmask `DOWN` (single bit). -/
def DOWN : Nat := 0x0002
/-- Modelled from the spec: logical button bitmask `LEFT` (single bit). -/
def LEFT : Nat := 0x0004
/-- Modelled from the spec: logical button bitmask `RIGHT` (single bit). -/
def RIGHT : Nat := 0x0008
/-- Modelled from the spec: logical button bitmask `START` (single bit). -/
def START : Nat := 0x0010
/-- Modelled from the spec: logical button bitmask `SELECT` (single bit). -/
def SELECT : Nat := 0x0020
/-- Modelled from the spec: logical button bitmask `A` (single bit). -/
def A : Nat := 0x1000
/-- Modelled from the spec: logical button bitmask `B` (single bit). -/
def B : Nat := 0x2000
/-- Modelled from the spec: logical button bitmask `X` (single bit). -/
def X : Nat := 0x4000
/-- Modelled from the spec: logical button bitmask `Y` (single bit). -/
def Y : Nat := 0x8000

end Pad

/-- Embedding of `handle_input(machine, prev, buttons, repeat)` of src/code.py, returning
the single `machine.handleGamepad(button, repeat)` call it makes (if any)
as `some (button constant, repeat flag)`. -/
def handle_input (prev buttons : Nat) (rpt : Bool) : Option (Nat × Bool) :=
  let diff := prev ^^^ buttons
  if rpt then
    if buttons = Pad.UP then some (SM.UP, true)
    else if buttons = Pad.DOWN then some (SM.DOWN, true)
    else none
  else
    if diff &&& Pad.A ≠ 0 ∧ buttons = Pad.A then some (SM.A, false)
    else if diff &&& Pad.B ≠ 0 ∧ buttons = Pad.B then some (SM.B, false)
    else if diff &&& Pad.UP ≠ 0 ∧ buttons = Pad.UP then some (SM.UP, false)
    else if diff &&& Pad.DOWN ≠ 0 ∧ buttons = Pad.DOWN then some (SM.DOWN, rpt)
    else if diff &&& Pad.LEFT ≠ 0 ∧ buttons = Pad.LEFT then some (SM.LEFT, false)
    else if diff &&& Pad.RIGHT ≠ 0 ∧ buttons = Pad.RIGHT then some (SM.RIGHT, false)
    else if diff &&& Pad.START ≠ 0 ∧ buttons = Pad.START then some (SM.START, false)
    else none

/-- The mutable timer state of the inner gamepad-polling loop of `main()`:
`prev_btn`, `hold_tmr`, `repeat_tmr`. -/
structure LoopState where
  prev_btn : Nat
  hold_tmr : Nat
  repeat_tmr : Nat
deriving DecidableEq

/-- The "Update timers" step at the top of the inner loop body
(`if buttons == 0: ... elif prev_btn != buttons: ... else: ...`),
returning the new `(hold_tmr, repeat_tmr)`. -/
def updTimers (s : LoopState) (buttons interval : Nat) : Nat × Nat :=
  if buttons = 0 then (0, 0)
  else if s.prev_btn ≠ buttons then (0, 0)
  else (s.hold_tmr + interval, s.repeat_tmr + interval)

/-- One iteration of the inner loop's input handling for a polled `buttons`
bitmask and the `interval` elapsed since the previous tick: updates the
timers, fires the hold-repeat logic (`DELAY_MS = 900`, `REPEAT_MS = 300`),
then the edge-trigger logic, and returns the new timer state together with
the list of `machine.handleGamepad` events delivered this tick. -/
def tickEvents (s : LoopState) (buttons interval : Nat) :
    LoopState × List (Nat × Bool) :=
  let t := updTimers s buttons interval
  let ht := t.1
  let rt := t.2
  let rptRes : Nat × List (Nat × Bool) :=
    if 900 ≤ ht then
      if ht = rt then
        (rt - 900, (handle_input s.prev_btn buttons true).toList)
      else if 300 ≤ rt then
        (rt - 300, (handle_input s.prev_btn buttons true).toList)
      else (rt, [])
    else (rt, [])
  let edgeEvs :=
    if s.prev_btn ≠ buttons then (handle_input s.prev_btn buttons false).toList
    else []
  (⟨buttons, ht, rptRes.1⟩, rptRes.2 ++ edgeEvs)

/-- Run the inner loop from timer state `s` (with `c` events counted so
far) over a list of tick intervals, holding the button bitmask `b`
unchanged on every tick. -/
def runFrom (b : Nat) (s : LoopState) (c : Nat) : List Nat → LoopState × Nat
  | [] => (s, c)
  | dt :: ds =>
    let r := tickEvents s b dt
    runFrom b r.1 (c + r.2.length) ds

/-- Synthetic hold of button bitmask `b`: run the loop over the tick
intervals `ds` starting from freshly reset timers with `b` already the
previous pressed set, counting the events delivered. -/
def holdRun (b : Nat) (ds : List Nat) : LoopState × Nat :=
  runFrom b ⟨b, 0, 0⟩ 0 ds

/-! ## Finite verification of the calendar roundtrip on the working range -/

/-- One date's roundtrip check: `ord2ymd` inverts `ymd2ord`. -/
def checkDate (y m d : Nat) : Bool :=
  decide (ord2ymd (ymd2ord y m d) = (y, m, d))

/-- Roundtrip check over every calendar-valid date of one year `y`; the
working range 2001..2037 (the year range the clock's clamping keeps the
RTC in) is covered by checking each of its years. -/
def checkYear (y : Nat) : Bool :=
  (List.range 12).all fun j =>
    (List.range (days_in_month y (1 + j))).all fun k =>
      checkDate y (1 + j) (1 + k)

/-- Month of a zero-based day-of-year `k` (0 = Jan 1), where `l` is 1 in a
leap year and 0 otherwise. -/
def monthOfYday (l k : Nat) : Nat :=
  if k < 31 then 1
  else if k < 59 + l then 2
  else if k < 90 + l then 3
  else if k < 120 + l then 4
  else if k < 151 + l then 5
  else if k < 181 + l then 6
  else if k < 212 + l then 7
  else if k < 243 + l then 8
  else if k < 273 + l then 9
  else if k < 304 + l then 10
  else if k < 334 + l then 11
  else 12

/-- Day-of-month matching `monthOfYday`. -/
def dayOfYday (l k : Nat) : Nat :=
  if k < 31 then k + 1
  else if k < 59 + l then k - 31 + 1
  else if k < 90 + l then k - (59 + l) + 1
  else if k < 120 + l then k - (90 + l) + 1
  else if k < 151 + l then k - (120 + l) + 1
  else if k < 181 + l then k - (151 + l) + 1
  else if k < 212 + l then k - (181 + l) + 1
  else if k < 243 + l then k - (212 + l) + 1
  else if k < 273 + l then k - (243 + l) + 1
  else if k < 304 + l then k - (273 + l) + 1
  else if k < 334 + l then k - (304 + l) + 1
  else k - (334 + l) + 1

/-- Response codes for which `handleGamepad` has an explicit branch:
the seven state-transition codes, `NOP`, and the nine RTC-editing action
codes of `applyAction`. -/
def handledCode (r : Nat) : Bool :=
  decide (r = SM.HHMM) || decide (r = SM.MMSS) || decide (r = SM.SetYr) ||
  decide (r = SM.SetMDay) || decide (r = SM.SetHour) ||
  decide (r = SM.SetHMin) || decide (r = SM.SetSec) || decide (r = SM.NOP) ||
  decide (r = SM.YrInc) || decide (r = SM.YrDec) || decide (r = SM.DayInc) ||
  decide (r = SM.DayDec) || decide (r = SM.HrInc) || decide (r = SM.HrDec) ||
  decide (r = SM.MinInc) || decide (r = SM.MinDec) || decide (r = SM.Sec00)

/-- Loop invariant for a constant hold: the hold timer equals the total
elapsed time `S`; before the initial delay no event has fired and the
repeat timer equals the hold timer; afterwards the number of fired
events `c` satisfies `repeat_tmr + 900 + 300 * (c - 1) = S`. -/
def holdInv (b S : Nat) (s : LoopState) (c : Nat) : Prop :=
  s.prev_btn = b ∧ s.hold_tmr = S ∧
  ((c = 0 ∧ s.repeat_tmr = S ∧ S < 900) ∨
   (1 ≤ c ∧ 900 ≤ S ∧ s.repeat_tmr + 900 + 300 * (c - 1) = S))

/-! ## Finite roundtrip check and derived calendar facts -/

set_option maxRecDepth 100000 in
set_option maxHeartbeats 1000000 in
theorem checkYear2001 : checkYear 2001 = true := by decide

set_option maxRecDepth 100000 in
set_option maxHeartbeats 1000000 in
theorem checkYear2002 : checkYear 2002 = true := by decide

set_option maxRecDepth 100000 in
set_option maxHeartbeats 1000000 in
theorem checkYear2003 : checkYear 2003 = true := by decide

set_option maxRecDepth 100000 in
set_option maxHeartbeats 1000000 in
theorem checkYear2004 : checkYear 2004 = true := by decide

set_option maxRecDepth 100000 in
set_option maxHeartbeats 1000000 in
theorem checkYear2005 : checkYear 2005 = true := by decide

set_option maxRecDepth 100000 in
set_option maxHeartbeats 1000000 in
theorem checkYear2006 : checkYear 2006 = true := by decide

set_option maxRecDepth 100000 in
set_option maxHeartbeats 1000000 in
theorem checkYear2007 : checkYear 2007 = true := by decide

set_option maxRecDepth 100000 in
set_option maxHeartbeats 1000000 in
theorem checkYear2008 : checkYear 2008 = true := by decide

set_option maxRecDepth 100000 in
set_option maxHeartbeats 1000000 in
theorem checkYear2009 : checkYear 2009 = true := by decide

set_option maxRecDepth 100000 in
set_option maxHeartbeats 1000000 in
theorem checkYear2010 : checkYear 2010 = true := by decide

set_option maxRecDepth 100000 in
set_option maxHeartbeats 1000000 in
theorem checkYear2011 : checkYear 2011 = true := by decide

set_option maxRecDepth 100000 in
set_option maxHeartbeats 1000000 in
theorem checkYear2012 : checkYear 2012 = true := by decide

set_option maxRecDepth 100000 in
set_option maxHeartbeats 1000000 in
theorem checkYear2013 : checkYear 2013 = true := by decide

set_option maxRecDepth 100000 in
set_option maxHeartbeats 1000000 in
theorem checkYear2014 : checkYear 2014 = true := by decide

set_option maxRecDepth 100000 in
set_option maxHeartbeats 1000000 in
theorem checkYear2015 : checkYear 2015 = true := by decide

set_option maxRecDepth 100000 in
set_option maxHeartbeats 1000000 in
theorem checkYear2016 : checkYear 2016 = true := by decide

set_option maxRecDepth 100000 in
set_option maxHeartbeats 1000000 in
theorem checkYear2017 : checkYear 2017 = true := by decide

set_option maxRecDepth 100000 in
set_option maxHeartbeats 1000000 in
theorem checkYear2018 : checkYear 2018 = true := by decide

set_option maxRecDepth 100000 in
set_option maxHeartbeats 1000000 in
theorem checkYear2019 : checkYear 2019 = true := by decide

set_option maxRecDepth 100000 in
set_option maxHeartbeats 1000000 in
theorem checkYear2020 : checkYear 2020 = true := by decide

set_option maxRecDepth 100000 in
set_option maxHeartbeats 1000000 in
theorem checkYear2021 : checkYear 2021 = true := by decide

set_option maxRecDepth 100000 in
set_option maxHeartbeats 1000000 in
theorem checkYear2022 : checkYear 2022 = true := by decide

set_option maxRecDepth 100000 in
set_option maxHeartbeats 1000000 in
theorem checkYear2023 : checkYear 2023 = true := by decide

set_option maxRecDepth 100000 in
set_option maxHeartbeats 1000000 in
theorem checkYear2024 : checkYear 2024 = true := by decide

set_option maxRecDepth 100000 in
set_option maxHeartbeats 1000000 in
theorem checkYear2025 : checkYear 2025 = true := by decide

set_option maxRecDepth 100000 in
set_option maxHeartbeats 1000000 in
theorem checkYear2026 : checkYear 2026 = true := by decide

set_option maxRecDepth 100000 in
set_option maxHeartbeats 1000000 in
theorem checkYear2027 : checkYear 2027 = true := by decide

set_option maxRecDepth 100000 in
set_option maxHeartbeats 1000000 in
theorem checkYear2028 : checkYear 2028 = true := by decide

set_option maxRecDepth 100000 in
set_option maxHeartbeats 1000000 in
theorem checkYear2029 : checkYear 2029 = true := by decide

set_option maxRecDepth 100000 in
set_option maxHeartbeats 1000000 in
theorem checkYear2030 : checkYear 2030 = true := by decide

set_option maxRecDepth 100000 in
set_option maxHeartbeats 1000000 in
theorem checkYear2031 : checkYear 2031 = true := by decide

set_option maxRecDepth 100000 in
set_option maxHeartbeats 1000000 in
theorem checkYear2032 : checkYear 2032 = true := by decide

set_option maxRecDepth 100000 in
set_option maxHeartbeats 1000000 in
theorem checkYear2033 : checkYear 2033 = true := by decide

set_option maxRecDepth 100000 in
set_option maxHeartbeats 1000000 in
theorem checkYear2034 : checkYear 2034 = true := by decide

set_option maxRecDepth 100000 in
set_option maxHeartbeats 1000000 in
theorem checkYear2035 : checkYear 2035 = true := by decide

set_option maxRecDepth 100000 in
set_option maxHeartbeats 1000000 in
theorem checkYear2036 : checkYear 2036 = true := by decide

set_option maxRecDepth 100000 in
set_option maxHeartbeats 1000000 in
theorem checkYear2037 : checkYear 2037 = true := by decide

/-- Extraction: a year whose finite check passes has the roundtrip property
on each of its calendar-valid dates. -/
theorem checkYear_roundtrip (y : Nat) (h : checkYear y = true) (m d : Nat)
    (hm1 : 1 ≤ m) (hm2 : m ≤ 12) (hd1 : 1 ≤ d)
    (hd2 : d ≤ days_in_month y m) :
    ord2ymd (ymd2ord y m d) = (y, m, d) := by
  unfold checkYear at h
  rw [List.all_eq_true] at h
  have h1 := h (m - 1) (List.mem_range.mpr (by omega))
  simp only [] at h1
  have hmm : 1 + (m - 1) = m := by omega
  rw [hmm] at h1
  rw [List.all_eq_true] at h1
  have h2 := h1 (d - 1) (List.mem_range.mpr (by omega))
  simp only [] at h2
  have hdd : 1 + (d - 1) = d := by omega
  rw [hdd] at h2
  unfold checkDate at h2
  exact of_decide_eq_true h2

/-- Roundtrip: `ord2ymd` inverts `ymd2ord` on every calendar-valid date in the
working year range. -/
theorem roundtrip (y m d : Nat) (hy1 : 2001 ≤ y) (hy2 : y ≤ 2037)
    (hm1 : 1 ≤ m) (hm2 : m ≤ 12) (hd1 : 1 ≤ d)
    (hd2 : d ≤ days_in_month y m) :
    ord2ymd (ymd2ord y m d) = (y, m, d) := by
  interval_cases y
  · exact checkYear_roundtrip 2001 checkYear2001 m d hm1 hm2 hd1 hd2
  · exact checkYear_roundtrip 2002 checkYear2002 m d hm1 hm2 hd1 hd2
  · exact checkYear_roundtrip 2003 checkYear2003 m d hm1 hm2 hd1 hd2
  · exact checkYear_roundtrip 2004 checkYear2004 m d hm1 hm2 hd1 hd2
  · exact checkYear_roundtrip 2005 checkYear2005 m d hm1 hm2 hd1 hd2
  · exact checkYear_roundtrip 2006 checkYear2006 m d hm1 hm2 hd1 hd2
  · exact checkYear_roundtrip 2007 checkYear2007 m d hm1 hm2 hd1 hd2
  · exact checkYear_roundtrip 2008 checkYear2008 m d hm1 hm2 hd1 hd2
  · exact checkYear_roundtrip 2009 checkYear2009 m d hm1 hm2 hd1 hd2
  · exact checkYear_roundtrip 2010 checkYear2010 m d hm1 hm2 hd1 hd2
  · exact checkYear_roundtrip 2011 checkYear2011 m d hm1 hm2 hd1 hd2
  · exact checkYear_roundtrip 2012 checkYear2012 m d hm1 hm2 hd1 hd2
  · exact checkYear_roundtrip 2013 checkYear2013 m d hm1 hm2 hd1 hd2
  · exact checkYear_roundtrip 2014 checkYear2014 m d hm1 hm2 hd1 hd2
  · exact checkYear_roundtrip 2015 checkYear2015 m d hm1 hm2 hd1 hd2
  · exact checkYear_roundtrip 2016 checkYear2016 m d hm1 hm2 hd1 hd2
  · exact checkYear_roundtrip 2017 checkYear2017 m d hm1 hm2 hd1 hd2
  · exact checkYear_roundtrip 2018 checkYear2018 m d hm1 hm2 hd1 hd2
  · exact checkYear_roundtrip 2019 checkYear2019 m d hm1 hm2 hd1 hd2
  · exact checkYear_roundtrip 2020 checkYear2020 m d hm1 hm2 hd1 hd2
  · exact checkYear_roundtrip 2021 checkYear2021 m d hm1 hm2 hd1 hd2
  · exact checkYear_roundtrip 2022 checkYear2022 m d hm1 hm2 hd1 hd2
  · exact checkYear_roundtrip 2023 checkYear2023 m d hm1 hm2 hd1 hd2
  · exact checkYear_roundtrip 2024 checkYear2024 m d hm1 hm2 hd1 hd2
  · exact checkYear_roundtrip 2025 checkYear2025 m d hm1 hm2 hd1 hd2
  · exact checkYear_roundtrip 2026 checkYear2026 m d hm1 hm2 hd1 hd2
  · exact checkYear_roundtrip 2027 checkYear2027 m d hm1 hm2 hd1 hd2
  · exact checkYear_roundtrip 2028 checkYear2028 m d hm1 hm2 hd1 hd2
  · exact checkYear_roundtrip 2029 checkYear2029 m d hm1 hm2 hd1 hd2
  · exact checkYear_roundtrip 2030 checkYear2030 m d hm1 hm2 hd1 hd2
  · exact checkYear_roundtrip 2031 checkYear2031 m d hm1 hm2 hd1 hd2
  · exact checkYear_roundtrip 2032 checkYear2032 m d hm1 hm2 hd1 hd2
  · exact checkYear_roundtrip 2033 checkYear2033 m d hm1 hm2 hd1 hd2
  · exact checkYear_roundtrip 2034 checkYear2034 m d hm1 hm2 hd1 hd2
  · exact checkYear_roundtrip 2035 checkYear2035 m d hm1 hm2 hd1 hd2
  · exact checkYear_roundtrip 2036 checkYear2036 m d hm1 hm2 hd1 hd2
  · exact checkYear_roundtrip 2037 checkYear2037 m d hm1 hm2 hd1 hd2

/-! ## Arithmetic facts about the calendar encoding -/

theorem is_leap_iff (y : Nat) :
    is_leap y = true ↔ (y % 4 = 0 ∧ (y % 100 ≠ 0 ∨ y % 400 = 0)) := by
  unfold is_leap
  simp [Bool.and_eq_true, Bool.or_eq_true, beq_iff_eq, bne_iff_ne]

theorem DAYS_BEFORE_MONTH_le (m : Nat) : DAYS_BEFORE_MONTH m ≤ 334 := by
  unfold DAYS_BEFORE_MONTH; split <;> omega

theorem days_in_month_le (y m : Nat) : days_in_month y m ≤ 31 := by
  unfold days_in_month
  split
  · omega
  · unfold DAYS_IN_MONTH; split <;> omega

theorem dby_succ (y : Nat) (hy : 1 ≤ y) :
    days_before_year (y + 1)
      = days_before_year y + 365 + (if is_leap y then 1 else 0) := by
  obtain ⟨x, rfl⟩ : ∃ x, y = x + 1 := ⟨y - 1, by omega⟩
  have hl := is_leap_iff (x + 1)
  simp only [days_before_year, Nat.add_sub_cancel]
  rw [Nat.succ_div x 4, Nat.succ_div x 100, Nat.succ_div x 400]
  cases hleap : is_leap (x + 1)
  · rw [hleap] at hl
    simp only [Bool.false_eq_true, false_iff] at hl
    simp only [Bool.false_eq_true, if_false]
    split_ifs <;> omega
  · rw [hleap] at hl
    simp only [true_iff] at hl
    simp only [if_true]
    split_ifs <;> omega

theorem ymd2ord_jan1 (y : Nat) : ymd2ord y 1 1 = days_before_year y + 1 := by
  unfold ymd2ord DAYS_BEFORE_MONTH
  simp

theorem ymd2ord_dec31 (y : Nat) :
    ymd2ord y 12 31
      = days_before_year y + 334 + (if is_leap y then 1 else 0) + 31 := by
  unfold ymd2ord DAYS_BEFORE_MONTH
  cases h : is_leap y <;> simp [h]

theorem coverage (y : Nat) (hy : 1 ≤ y) :
    ymd2ord (y + 1) 1 1 = ymd2ord y 12 31 + 1 := by
  rw [ymd2ord_jan1, ymd2ord_dec31, dby_succ y hy]
  split <;> omega

theorem jan1_step (y : Nat) (hy : 1 ≤ y) :
    ymd2ord y 1 1 + 365 ≤ ymd2ord (y + 1) 1 1 := by
  rw [ymd2ord_jan1, ymd2ord_jan1, dby_succ y hy]
  split <;> omega

theorem dec31_step (y : Nat) (hy : 1 ≤ y) :
    ymd2ord y 12 31 + 365 ≤ ymd2ord (y + 1) 12 31 := by
  rw [ymd2ord_dec31, ymd2ord_dec31, dby_succ y hy]
  split <;> split <;> omega

theorem jan1_chain (w : Nat) (hw : 1 ≤ w) :
    ∀ k, ymd2ord w 1 1 + 365 * k ≤ ymd2ord (w + k) 1 1 := by
  intro k
  induction k with
  | zero => simp
  | succ k ih =>
    have hstep := jan1_step (w + k) (by omega)
    have hadd : w + (k + 1) = w + k + 1 := rfl
    rw [hadd]
    omega

theorem dec31_chain (w : Nat) (hw : 1 ≤ w) :
    ∀ k, ymd2ord w 12 31 + 365 * k ≤ ymd2ord (w + k) 12 31 := by
  intro k
  induction k with
  | zero => simp
  | succ k ih =>
    have hstep := dec31_step (w + k) (by omega)
    have hadd : w + (k + 1) = w + k + 1 := rfl
    rw [hadd]
    omega

theorem ymd2ord_offset (y m d : Nat) (hm : 1 ≤ m) (hd : 1 ≤ d) :
    ymd2ord y m d
      = ymd2ord y 1 1
        + (DAYS_BEFORE_MONTH m + (if 2 < m && is_leap y then 1 else 0) + d)
        - 1 := by
  rw [ymd2ord_jan1]
  unfold ymd2ord
  omega

theorem offset_lt (y m d : Nat) (hm1 : 1 ≤ m) (hm2 : m ≤ 12) (hd1 : 1 ≤ d)
    (hd2 : d ≤ days_in_month y m) :
    DAYS_BEFORE_MONTH m + (if 2 < m && is_leap y then 1 else 0) + d
      ≤ 365 + (if is_leap y then 1 else 0) := by
  cases hleap : is_leap y <;>
    interval_cases m <;>
    simp [days_in_month, DAYS_IN_MONTH, DAYS_BEFORE_MONTH, hleap] at hd2 ⊢ <;>
    omega

/-- Case enumeration for `monthOfYday`/`dayOfYday`. -/
theorem mdOfYday_branches (l k : Nat) :
    (k < 31 ∧ monthOfYday l k = 1 ∧ dayOfYday l k = k + 1) ∨
    (31 ≤ k ∧ k < 59 + l ∧ monthOfYday l k = 2 ∧ dayOfYday l k = k - 31 + 1) ∨
    (59 + l ≤ k ∧ k < 90 + l ∧ monthOfYday l k = 3 ∧ dayOfYday l k = k - (59 + l) + 1) ∨
    (90 + l ≤ k ∧ k < 120 + l ∧ monthOfYday l k = 4 ∧ dayOfYday l k = k - (90 + l) + 1) ∨
    (120 + l ≤ k ∧ k < 151 + l ∧ monthOfYday l k = 5 ∧ dayOfYday l k = k - (120 + l) + 1) ∨
    (151 + l ≤ k ∧ k < 181 + l ∧ monthOfYday l k = 6 ∧ dayOfYday l k = k - (151 + l) + 1) ∨
    (181 + l ≤ k ∧ k < 212 + l ∧ monthOfYday l k = 7 ∧ dayOfYday l k = k - (181 + l) + 1) ∨
    (212 + l ≤ k ∧ k < 243 + l ∧ monthOfYday l k = 8 ∧ dayOfYday l k = k - (212 + l) + 1) ∨
    (243 + l ≤ k ∧ k < 273 + l ∧ monthOfYday l k = 9 ∧ dayOfYday l k = k - (243 + l) + 1) ∨
    (273 + l ≤ k ∧ k < 304 + l ∧ monthOfYday l k = 10 ∧ dayOfYday l k = k - (273 + l) + 1) ∨
    (304 + l ≤ k ∧ k < 334 + l ∧ monthOfYday l k = 11 ∧ dayOfYday l k = k - (304 + l) + 1) ∨
    (334 + l ≤ k ∧ monthOfYday l k = 12 ∧ dayOfYday l k = k - (334 + l) + 1) := by
  by_cases h1 : k < 31
  · refine Or.inl ⟨h1, ?_, ?_⟩
    · unfold monthOfYday; simp only [if_pos h1]
    · unfold dayOfYday; simp only [if_pos h1]
  by_cases h2 : k < 59 + l
  · refine Or.inr (Or.inl ⟨by omega, h2, ?_, ?_⟩)
    · unfold monthOfYday; simp only [if_neg h1, if_pos h2]
    · unfold dayOfYday; simp only [if_neg h1, if_pos h2]
  by_cases h3 : k < 90 + l
  · refine Or.inr (Or.inr (Or.inl ⟨by omega, h3, ?_, ?_⟩))
    · unfold monthOfYday; simp only [if_neg h1, if_neg h2, if_pos h3]
    · unfold dayOfYday; simp only [if_neg h1, if_neg h2, if_pos h3]
  by_cases h4 : k < 120 + l
  · refine Or.inr (Or.inr (Or.inr (Or.inl ⟨by omega, h4, ?_, ?_⟩)))
    · unfold monthOfYday; simp only [if_neg h1, if_neg h2, if_neg h3, if_pos h4]
    · unfold dayOfYday; simp only [if_neg h1, if_neg h2, if_neg h3, if_pos h4]
  by_cases h5 : k < 151 + l
  · refine Or.inr (Or.inr (Or.inr (Or.inr (Or.inl ⟨by omega, h5, ?_, ?_⟩))))
    · unfold monthOfYday; simp only [if_neg h1, if_neg h2, if_neg h3, if_neg h4, if_pos h5]
    · unfold dayOfYday; simp only [if_neg h1, if_neg h2, if_neg h3, if_neg h4, if_pos h5]
  by_cases h6 : k < 181 + l
  · refine Or.inr (Or.inr (Or.inr (Or.inr (Or.inr (Or.inl ⟨by omega, h6, ?_, ?_⟩)))))
    · unfold monthOfYday; simp only [if_neg h1, if_neg h2, if_neg h3, if_neg h4, if_neg h5, if_pos h6]
    · unfold dayOfYday; simp only [if_neg h1, if_neg h2, if_neg h3, if_neg h4, if_neg h5, if_pos h6]
  by_cases h7 : k < 212 + l
  · refine Or.inr (Or.inr (Or.inr (Or.inr (Or.inr (Or.inr (Or.inl ⟨by omega, h7, ?_, ?_⟩))))))
    · unfold monthOfYday; simp only [if_neg h1, if_neg h2, if_neg h3, if_neg h4, if_neg h5, if_neg h6, if_pos h7]
    · unfold dayOfYday; simp only [if_neg h1, if_neg h2, if_neg h3, if_neg h4, if_neg h5, if_neg h6, if_pos h7]
  by_cases h8 : k < 243 + l
  · refine Or.inr (Or.inr (Or.inr (Or.inr (Or.inr (Or.inr (Or.inr (Or.inl ⟨by omega, h8, ?_, ?_⟩)))))))
    · unfold monthOfYday; simp only [if_neg h1, if_neg h2, if_neg h3, if_neg h4, if_neg h5, if_neg h6, if_neg h7, if_pos h8]
    · unfold dayOfYday; simp only [if_neg h1, if_neg h2, if_neg h3, if_neg h4, if_neg h5, if_neg h6, if_neg h7, if_pos h8]
  by_cases h9 : k < 273 + l
  · refine Or.inr (Or.inr (Or.inr (Or.inr (Or.inr (Or.inr (Or.inr (Or.inr (Or.inl ⟨by omega, h9, ?_, ?_⟩))))))))
    · unfold monthOfYday; simp only [if_neg h1, if_neg h2, if_neg h3, if_neg h4, if_neg h5, if_neg h6, if_neg h7, if_neg h8, if_pos h9]
    · unfold dayOfYday; simp only [if_neg h1, if_neg h2, if_neg h3, if_neg h4, if_neg h5, if_neg h6, if_neg h7, if_neg h8, if_pos h9]
  by_cases h10 : k < 304 + l
  · refine Or.inr (Or.inr (Or.inr (Or.inr (Or.inr (Or.inr (Or.inr (Or.inr (Or.inr (Or.inl ⟨by omega, h10, ?_, ?_⟩)))))))))
    · unfold monthOfYday; simp only [if_neg h1, if_neg h2, if_neg h3, if_neg h4, if_neg h5, if_neg h6, if_neg h7, if_neg h8, if_neg h9, if_pos h10]
    · unfold dayOfYday; simp only [if_neg h1, if_neg h2, if_neg h3, if_neg h4, if_neg h5, if_neg h6, if_neg h7, if_neg h8, if_neg h9, if_pos h10]
  by_cases h11 : k < 334 + l
  · refine Or.inr (Or.inr (Or.inr (Or.inr (Or.inr (Or.inr (Or.inr (Or.inr (Or.inr (Or.inr (Or.inl ⟨by omega, h11, ?_, ?_⟩))))))))))
    · unfold monthOfYday; simp only [if_neg h1, if_neg h2, if_neg h3, if_neg h4, if_neg h5, if_neg h6, if_neg h7, if_neg h8, if_neg h9, if_neg h10, if_pos h11]
    · unfold dayOfYday; simp only [if_neg h1, if_neg h2, if_neg h3, if_neg h4, if_neg h5, if_neg h6, if_neg h7, if_neg h8, if_neg h9, if_neg h10, if_pos h11]
  refine Or.inr (Or.inr (Or.inr (Or.inr (Or.inr (Or.inr (Or.inr (Or.inr (Or.inr (Or.inr (Or.inr (⟨by omega, ?_, ?_⟩)))))))))))
  · unfold monthOfYday; simp only [if_neg h1, if_neg h2, if_neg h3, if_neg h4, if_neg h5, if_neg h6, if_neg h7, if_neg h8, if_neg h9, if_neg h10, if_neg h11]
  · unfold dayOfYday; simp only [if_neg h1, if_neg h2, if_neg h3, if_neg h4, if_neg h5, if_neg h6, if_neg h7, if_neg h8, if_neg h9, if_neg h10, if_neg h11]

theorem mdOfYday_gen (l k : Nat) (hl : l ≤ 1) (hk : k < 365 + l) :
    1 ≤ monthOfYday l k ∧ monthOfYday l k ≤ 12 ∧
    1 ≤ dayOfYday l k ∧
    dayOfYday l k
      ≤ (if monthOfYday l k = 2 then 28 + l
         else DAYS_IN_MONTH (monthOfYday l k)) ∧
    DAYS_BEFORE_MONTH (monthOfYday l k)
      + (if 3 ≤ monthOfYday l k then l else 0)
      + dayOfYday l k = k + 1 := by
  rcases mdOfYday_branches l k with
    ⟨h, hm, hd⟩ | ⟨h, h2, hm, hd⟩ | ⟨h, h2, hm, hd⟩ | ⟨h, h2, hm, hd⟩ | ⟨h, h2, hm, hd⟩ | ⟨h, h2, hm, hd⟩ | ⟨h, h2, hm, hd⟩ | ⟨h, h2, hm, hd⟩ | ⟨h, h2, hm, hd⟩ | ⟨h, h2, hm, hd⟩ | ⟨h, h2, hm, hd⟩ | ⟨h, hm, hd⟩ <;>
  rw [hm, hd] <;>
  refine ⟨by omega, by omega, by omega, ?_, ?_⟩ <;>
  norm_num [DAYS_IN_MONTH, DAYS_BEFORE_MONTH] <;> omega

theorem days_in_month_eq (y m : Nat) :
    days_in_month y m
      = if m = 2 then 28 + (if is_leap y then 1 else 0)
        else DAYS_IN_MONTH m := by
  unfold days_in_month
  cases h : is_leap y <;> by_cases hm : m = 2 <;>
    simp [hm, h, DAYS_IN_MONTH]

theorem leap_adj_eq (y m : Nat) :
    (if 2 < m && is_leap y then 1 else 0)
      = (if 3 ≤ m then (if is_leap y then 1 else 0) else 0) := by
  cases h : is_leap y <;> by_cases hm : 2 < m <;>
    simp [hm, h] <;> split_ifs <;> omega

/-- Within a year, every day-of-year offset is realised by a valid
(month, day) pair. -/
theorem mdOfYday_spec (y k : Nat)
    (hk : k < 365 + (if is_leap y then 1 else 0)) :
    1 ≤ monthOfYday (if is_leap y then 1 else 0) k ∧
    monthOfYday (if is_leap y then 1 else 0) k ≤ 12 ∧
    1 ≤ dayOfYday (if is_leap y then 1 else 0) k ∧
    dayOfYday (if is_leap y then 1 else 0) k
      ≤ days_in_month y (monthOfYday (if is_leap y then 1 else 0) k) ∧
    DAYS_BEFORE_MONTH (monthOfYday (if is_leap y then 1 else 0) k)
      + (if 2 < monthOfYday (if is_leap y then 1 else 0) k && is_leap y
         then 1 else 0)
      + dayOfYday (if is_leap y then 1 else 0) k
      = k + 1 := by
  have hl : (if is_leap y then 1 else 0) ≤ 1 := by split <;> omega
  obtain ⟨q1, q2, q3, q4, q5⟩ :=
    mdOfYday_gen (if is_leap y then 1 else 0) k hl hk
  refine ⟨q1, q2, q3, ?_, ?_⟩
  · rw [days_in_month_eq]
    exact q4
  · rw [leap_adj_eq]
    exact q5

theorem find_bracket :
    ∀ (k z : Nat), ymd2ord 2001 1 1 ≤ z → z ≤ ymd2ord (2001 + k) 12 31 →
    ∃ y, 2001 ≤ y ∧ y ≤ 2001 + k ∧ ymd2ord y 1 1 ≤ z ∧ z ≤ ymd2ord y 12 31 := by
  intro k
  induction k with
  | zero => intro z h2 h1; exact ⟨2001, le_refl _, le_refl _, h2, h1⟩
  | succ k ih =>
    intro z h2 h1
    by_cases hz : z ≤ ymd2ord (2001 + k) 12 31
    · obtain ⟨y, hy1, hy2, hb1, hb2⟩ := ih z h2 hz
      exact ⟨y, hy1, by omega, hb1, hb2⟩
    · have hc := coverage (2001 + k) (by omega)
      have hadd : 2001 + (k + 1) = 2001 + k + 1 := rfl
      refine ⟨2001 + (k + 1), by omega, le_refl _, ?_, h1⟩
      rw [hadd]
      omega

theorem yday_lt (y z : Nat) (h1 : ymd2ord y 1 1 ≤ z)
    (h2 : z ≤ ymd2ord y 12 31) :
    z - ymd2ord y 1 1 < 365 + (if is_leap y then 1 else 0) := by
  have hd31 := ymd2ord_dec31 y
  have hj1 := ymd2ord_jan1 y
  cases hleap : is_leap y <;>
    simp only [hleap, Bool.false_eq_true, if_false, if_true] at hd31 ⊢ <;>
    omega

theorem exists_date_of_ord (z : Nat) (h1 : ymd2ord 2001 1 1 ≤ z)
    (h2 : z ≤ ymd2ord 2037 12 31) :
    ∃ y m d, 2001 ≤ y ∧ y ≤ 2037 ∧ 1 ≤ m ∧ m ≤ 12 ∧ 1 ≤ d ∧
      d ≤ days_in_month y m ∧ ymd2ord y m d = z := by
  have h2' : z ≤ ymd2ord (2001 + 36) 12 31 := by
    have h36 : (2001 + 36 : Nat) = 2037 := by omega
    rw [h36]; exact h2
  obtain ⟨y, hy1, hy2, hb1, hb2⟩ := find_bracket 36 z h1 h2'
  have hy2' : y ≤ 2037 := by omega
  have hk := yday_lt y z hb1 hb2
  obtain ⟨q1, q2, q3, q4, q5⟩ := mdOfYday_spec y (z - ymd2ord y 1 1) hk
  refine ⟨y, monthOfYday (if is_leap y then 1 else 0) (z - ymd2ord y 1 1),
    dayOfYday (if is_leap y then 1 else 0) (z - ymd2ord y 1 1),
    hy1, hy2', q1, q2, q3, q4, ?_⟩
  rw [ymd2ord_offset _ _ _ q1 q3]
  omega

theorem ord2ymd_year_eq (y z : Nat) (hy1 : 2001 ≤ y) (hy2 : y ≤ 2037)
    (h1 : ymd2ord y 1 1 ≤ z) (h2 : z ≤ ymd2ord y 12 31) :
    (ord2ymd z).1 = y := by
  have hk := yday_lt y z h1 h2
  obtain ⟨q1, q2, q3, q4, q5⟩ := mdOfYday_spec y (z - ymd2ord y 1 1) hk
  have hz : ymd2ord y (monthOfYday (if is_leap y then 1 else 0) (z - ymd2ord y 1 1))
      (dayOfYday (if is_leap y then 1 else 0) (z - ymd2ord y 1 1)) = z := by
    rw [ymd2ord_offset _ _ _ q1 q3]
    omega
  have hr := roundtrip y _ _ hy1 hy2 q1 q2 q3 q4
  rw [hz] at hr
  rw [hr]

theorem ord2ymd_year_range (z : Nat) (h1 : ymd2ord 2001 1 1 ≤ z)
    (h2 : z ≤ ymd2ord 2037 12 31) :
    2001 ≤ (ord2ymd z).1 ∧ (ord2ymd z).1 ≤ 2037 := by
  obtain ⟨y, m, d, hy1, hy2, hm1, hm2, hd1, hd2, hz⟩ :=
    exists_date_of_ord z h1 h2
  have hr := roundtrip y m d hy1 hy2 hm1 hm2 hd1 hd2
  rw [hz] at hr
  rw [hr]
  exact ⟨hy1, hy2⟩

theorem within_year_lb (y m d : Nat) (hd : 1 ≤ d) :
    ymd2ord y 1 1 ≤ ymd2ord y m d := by
  rw [ymd2ord_jan1]
  unfold ymd2ord
  omega

theorem within_year_ub (y m d : Nat) (hm1 : 1 ≤ m) (hm2 : m ≤ 12)
    (hd1 : 1 ≤ d) (hd2 : d ≤ days_in_month y m) :
    ymd2ord y m d ≤ ymd2ord y 12 31 := by
  have hoff := offset_lt y m d hm1 hm2 hd1 hd2
  have he := ymd2ord_offset y m d hm1 hd1
  have hd31 := ymd2ord_dec31 y
  have hj1 := ymd2ord_jan1 y
  cases hleap : is_leap y <;>
    simp only [hleap, Bool.false_eq_true, Bool.and_false, Bool.and_true,
      if_false, if_true] at hoff he hd31 <;>
    omega

theorem ymd2ord_lb (y m d : Nat) (hy : 2001 ≤ y) (hd : 1 ≤ d) :
    730486 ≤ ymd2ord y m d := by
  have hj := jan1_chain 2001 (by omega) (y - 2001)
  have hyy : 2001 + (y - 2001) = y := by omega
  rw [hyy] at hj
  have h1 : ymd2ord 2001 1 1 = 730486 := by decide
  have hoff := within_year_lb y m d hd
  omega

theorem ymd2ord_ub (y m d : Nat) (hy1 : 2001 ≤ y) (hy2 : y ≤ 2037)
    (hm1 : 1 ≤ m) (hm2 : m ≤ 12) (hd1 : 1 ≤ d)
    (hd2 : d ≤ days_in_month y m) :
    ymd2ord y m d ≤ 743999 := by
  have hu := within_year_ub y m d hm1 hm2 hd1 hd2
  have hc := dec31_chain y (by omega) (2037 - y)
  have hyy : y + (2037 - y) = 2037 := by omega
  rw [hyy] at hc
  have h1 : ymd2ord 2037 12 31 = 743999 := by decide
  omega

/-! ## Decomposition of `mktime` and `fromtimestamp` -/

theorem fromtimestamp_split (D r : Nat) :
    fromtimestamp ((D : Int) * 86400 + (r : Int)) =
      ⟨(ord2ymd (D + r / 86400 + EPOCH_ORD)).1,
       (ord2ymd (D + r / 86400 + EPOCH_ORD)).2.1,
       (ord2ymd (D + r / 86400 + EPOCH_ORD)).2.2,
       r % 86400 / 3600, r % 86400 % 3600 / 60, r % 86400 % 60⟩ := by
  have h1 : ((D : Int) * 86400 + (r : Int)).toNat = D * 86400 + r := by omega
  simp only [fromtimestamp, h1]
  have h2 : (D * 86400 + r) / 86400 = D + r / 86400 := by omega
  have h3 : (D * 86400 + r) % 86400 = r % 86400 := by omega
  rw [h2, h3]

theorem shift_within_day (st : StructTime) (hv : validSt st) (n : Int)
    (h0 : 0 ≤ (tod st : Int) + n) (h1 : (tod st : Int) + n < 86400) :
    fromtimestamp (mktime st + n) =
      ⟨st.tm_year, st.tm_mon, st.tm_mday,
       ((tod st : Int) + n).toNat / 3600,
       ((tod st : Int) + n).toNat % 3600 / 60,
       ((tod st : Int) + n).toNat % 60⟩ := by
  obtain ⟨hy1, hy2, hm1, hm2, hd1, hd2, hh, hmi, hs⟩ := hv
  have hlb : 730486 ≤ ymd2ord st.tm_year st.tm_mon st.tm_mday :=
    ymd2ord_lb _ _ _ hy1 hd1
  have hmk : mktime st + n
      = ((ymd2ord st.tm_year st.tm_mon st.tm_mday - EPOCH_ORD : Nat) : Int) * 86400
        + ((((tod st : Int) + n).toNat : Nat) : Int) := by
    simp only [mktime, tod, EPOCH_ORD] at *
    omega
  rw [hmk, fromtimestamp_split]
  have e1 : ((tod st : Int) + n).toNat / 86400 = 0 := by omega
  rw [e1]
  have e2 : ymd2ord st.tm_year st.tm_mon st.tm_mday - EPOCH_ORD + 0 + EPOCH_ORD
      = ymd2ord st.tm_year st.tm_mon st.tm_mday := by
    simp only [EPOCH_ORD]; omega
  rw [e2]
  rw [roundtrip st.tm_year st.tm_mon st.tm_mday hy1 hy2 hm1 hm2 hd1 hd2]
  have e3 : ((tod st : Int) + n).toNat % 86400 = ((tod st : Int) + n).toNat := by
    omega
  rw [e3]

theorem shift_whole_days (st : StructTime) (hv : validSt st) (n : Int)
    (hn : -1825 ≤ n) :
    fromtimestamp (mktime st + timedeltaDays n) =
      ⟨(ord2ymd ((ymd2ord st.tm_year st.tm_mon st.tm_mday : Int) + n).toNat).1,
       (ord2ymd ((ymd2ord st.tm_year st.tm_mon st.tm_mday : Int) + n).toNat).2.1,
       (ord2ymd ((ymd2ord st.tm_year st.tm_mon st.tm_mday : Int) + n).toNat).2.2,
       st.tm_hour, st.tm_min, st.tm_sec⟩ := by
  obtain ⟨hy1, hy2, hm1, hm2, hd1, hd2, hh, hmi, hs⟩ := hv
  have hlb : 730486 ≤ ymd2ord st.tm_year st.tm_mon st.tm_mday :=
    ymd2ord_lb _ _ _ hy1 hd1
  have hmk : mktime st + timedeltaDays n
      = ((((ymd2ord st.tm_year st.tm_mon st.tm_mday : Int) + n).toNat
            - EPOCH_ORD : Nat) : Int) * 86400
        + ((tod st : Nat) : Int) := by
    simp only [mktime, tod, timedeltaDays, EPOCH_ORD] at *
    omega
  rw [hmk, fromtimestamp_split]
  have e1 : tod st / 86400 = 0 := by
    simp only [tod]; omega
  rw [e1]
  have e2 : ((ymd2ord st.tm_year st.tm_mon st.tm_mday : Int) + n).toNat
        - EPOCH_ORD + 0 + EPOCH_ORD
      = ((ymd2ord st.tm_year st.tm_mon st.tm_mday : Int) + n).toNat := by
    simp only [EPOCH_ORD]; omega
  rw [e2]
  have e3 : tod st % 86400 = tod st := by simp only [tod]; omega
  rw [e3]
  have e4 : tod st / 3600 = st.tm_hour := by simp only [tod]; omega
  have e5 : tod st % 3600 / 60 = st.tm_min := by simp only [tod]; omega
  have e6 : tod st % 60 = st.tm_sec := by simp only [tod]; omega
  rw [e4, e5, e6]

/-- Inversion: `fromtimestamp` inverts `mktime` on valid snapshots. -/
theorem fromtimestamp_mktime (st : StructTime) (hv : validSt st) :
    fromtimestamp (mktime st) = st := by
  obtain ⟨hy1, hy2, hm1, hm2, hd1, hd2, hh, hmi, hs⟩ := hv
  have h := shift_within_day st ⟨hy1, hy2, hm1, hm2, hd1, hd2, hh, hmi, hs⟩ 0
    (by simp only [tod]; omega) (by simp only [tod]; omega)
  rw [add_zero] at h
  rw [h]
  have e0 : ((tod st : Int) + 0).toNat = tod st := by omega
  rw [e0]
  have e4 : tod st / 3600 = st.tm_hour := by simp only [tod]; omega
  have e5 : tod st % 3600 / 60 = st.tm_min := by simp only [tod]; omega
  have e6 : tod st % 60 = st.tm_sec := by simp only [tod]; omega
  rw [e4, e5, e6]

/-! ## Bounds on the clamped per-action steps -/

theorem yrIncN_cases (rpt : Bool) (y : Nat) (hy1 : 2001 ≤ y) (hy2 : y ≤ 2037) :
    0 ≤ yrIncN rpt y ∧ yrIncN rpt y ≤ 5 ∧ (y : Int) + yrIncN rpt y ≤ 2037 ∧
    (y = 2037 → yrIncN rpt y = 0) := by
  unfold yrIncN
  cases rpt <;> simp only [Bool.false_eq_true, if_false, if_true] <;>
    split_ifs <;> refine ⟨by omega, by omega, by omega, fun hy => by omega⟩

theorem yrDecN_cases (rpt : Bool) (y : Nat) (hy1 : 2001 ≤ y) (hy2 : y ≤ 2037) :
    -5 ≤ yrDecN rpt y ∧ yrDecN rpt y ≤ 0 ∧ 2001 ≤ (y : Int) + yrDecN rpt y ∧
    (y = 2001 → yrDecN rpt y = 0) := by
  unfold yrDecN
  cases rpt <;> simp only [Bool.false_eq_true, if_false, if_true] <;>
    split_ifs <;> refine ⟨by omega, by omega, by omega, fun hy => by omega⟩

theorem dayIncN_cases (rpt : Bool) (m d : Nat) (hd1 : 1 ≤ d) (hd2 : d ≤ 31) :
    0 ≤ dayIncN rpt m d ∧ dayIncN rpt m d ≤ 10 ∧
    (m = 12 → (d : Int) + dayIncN rpt m d ≤ 31) := by
  unfold dayIncN
  cases rpt <;> simp only [Bool.false_eq_true, if_false, if_true] <;>
    split_ifs <;> refine ⟨by omega, by omega, fun hm => by omega⟩ <;> omega

theorem dayDecN_cases (rpt : Bool) (m d : Nat) (hd1 : 1 ≤ d) (hd2 : d ≤ 31) :
    -10 ≤ dayDecN rpt m d ∧ dayDecN rpt m d ≤ 0 ∧
    (m = 1 → 1 ≤ (d : Int) + dayDecN rpt m d) := by
  unfold dayDecN
  cases rpt <;> simp only [Bool.false_eq_true, if_false, if_true] <;>
    split_ifs <;> refine ⟨by omega, by omega, fun hm => by omega⟩ <;> omega

theorem hrIncN_cases (rpt : Bool) (h : Nat) (hh : h ≤ 23) :
    0 ≤ hrIncN rpt h ∧ 0 ≤ (h : Int) + hrIncN rpt h ∧
    (h : Int) + hrIncN rpt h ≤ 23 := by
  unfold hrIncN
  cases rpt <;> simp only [Bool.false_eq_true, if_false, if_true] <;>
    split_ifs <;> refine ⟨by omega, by omega, by omega⟩

theorem hrDecN_cases (rpt : Bool) (h : Nat) (hh : h ≤ 23) :
    hrDecN rpt h ≤ 0 ∧ 0 ≤ (h : Int) + hrDecN rpt h ∧
    (h : Int) + hrDecN rpt h ≤ 23 := by
  unfold hrDecN
  cases rpt <;> simp only [Bool.false_eq_true, if_false, if_true] <;>
    split_ifs <;> refine ⟨by omega, by omega, by omega⟩

theorem minIncN_cases (rpt : Bool) (h mi : Nat) (hh : h ≤ 23) (hmi : mi ≤ 59) :
    0 ≤ minIncN rpt h mi ∧ minIncN rpt h mi ≤ 10 ∧
    (h = 23 → (mi : Int) + minIncN rpt h mi ≤ 59) ∧
    (rpt = false → h = 23 → mi = 59 → minIncN rpt h mi = 0) := by
  unfold minIncN
  cases rpt <;> simp only [Bool.false_eq_true, if_false, if_true] <;>
    split_ifs <;>
    refine ⟨by omega, by omega, fun hm => by omega, fun hr hm hm' => by omega⟩ <;>
    omega

theorem minDecN_cases (rpt : Bool) (h mi : Nat) (hh : h ≤ 23) (hmi : mi ≤ 59) :
    -10 ≤ minDecN rpt h mi ∧ minDecN rpt h mi ≤ 0 ∧
    (h = 0 → 0 ≤ (mi : Int) + minDecN rpt h mi) := by
  unfold minDecN
  cases rpt <;> simp only [Bool.false_eq_true, if_false, if_true] <;>
    split_ifs <;> refine ⟨by omega, by omega, fun hm => by omega⟩ <;> omega

theorem DAYS_BEFORE_MONTH_le_11 (m : Nat) (hm1 : 1 ≤ m) (hm : m ≤ 11) :
    DAYS_BEFORE_MONTH m ≤ 304 := by
  interval_cases m <;> simp [DAYS_BEFORE_MONTH]

theorem DAYS_BEFORE_MONTH_ge_2 (m : Nat) (hm : 2 ≤ m) (hm2 : m ≤ 12) :
    31 ≤ DAYS_BEFORE_MONTH m := by
  interval_cases m <;> simp [DAYS_BEFORE_MONTH]

theorem dec31_offset (y : Nat) :
    ymd2ord y 12 31 = ymd2ord y 1 1 + 364 + (if is_leap y then 1 else 0) := by
  rw [ymd2ord_dec31, ymd2ord_jan1]
  split <;> omega

/-! ## Effect of each RTC-editing action on a valid snapshot -/

theorem yrInc_effect (rpt : Bool) (st : StructTime) (hv : validSt st) :
    ∃ st', applyAction SM.YrInc rpt st = some st' ∧
      2001 ≤ st'.tm_year ∧ st'.tm_year ≤ 2037 ∧
      st'.tm_hour = st.tm_hour ∧ st'.tm_min = st.tm_min ∧
      st'.tm_sec = st.tm_sec ∧
      (st.tm_year = 2037 → st' = st) := by
  obtain ⟨b1, b2, b3, b4⟩ := yrIncN_cases rpt st.tm_year hv.1 hv.2.1
  have hsh := shift_whole_days st hv (yrIncN rpt st.tm_year * 365) (by omega)
  have hlb : 730486 ≤ ymd2ord st.tm_year st.tm_mon st.tm_mday :=
    ymd2ord_lb _ _ _ hv.1 hv.2.2.2.2.1
  have hub := within_year_ub st.tm_year st.tm_mon st.tm_mday
    hv.2.2.1 hv.2.2.2.1 hv.2.2.2.2.1 hv.2.2.2.2.2.1
  have hc1 := dec31_chain st.tm_year (by have := hv.1; omega)
    (yrIncN rpt st.tm_year).toNat
  have hc2 := dec31_chain (st.tm_year + (yrIncN rpt st.tm_year).toNat)
    (by have := hv.1; omega)
    (2037 - (st.tm_year + (yrIncN rpt st.tm_year).toNat))
  have hyy : st.tm_year + (yrIncN rpt st.tm_year).toNat
      + (2037 - (st.tm_year + (yrIncN rpt st.tm_year).toNat)) = 2037 := by
    have := hv.1; omega
  rw [hyy] at hc2
  have h37 : ymd2ord 2037 12 31 = 743999 := by decide
  have h01 : ymd2ord 2001 1 1 = 730486 := by decide
  have hrange := ord2ymd_year_range
    ((ymd2ord st.tm_year st.tm_mon st.tm_mday : Int)
      + yrIncN rpt st.tm_year * 365).toNat
    (by omega) (by omega)
  refine ⟨_, rfl, ?_, ?_, ?_, ?_, ?_, ?_⟩
  · rw [hsh]; exact hrange.1
  · rw [hsh]; exact hrange.2
  · rw [hsh]
  · rw [hsh]
  · rw [hsh]
  · intro hy37
    have hn0 := b4 hy37
    rw [hn0]
    norm_num [timedeltaDays]
    exact fromtimestamp_mktime st hv

theorem yrDec_effect (rpt : Bool) (st : StructTime) (hv : validSt st) :
    ∃ st', applyAction SM.YrDec rpt st = some st' ∧
      2001 ≤ st'.tm_year ∧ st'.tm_year ≤ 2037 ∧
      st'.tm_hour = st.tm_hour ∧ st'.tm_min = st.tm_min ∧
      st'.tm_sec = st.tm_sec ∧
      (st.tm_year = 2001 → st' = st) := by
  obtain ⟨b1, b2, b3, b4⟩ := yrDecN_cases rpt st.tm_year hv.1 hv.2.1
  have hsh := shift_whole_days st hv (yrDecN rpt st.tm_year * 365) (by omega)
  have hlb : 730486 ≤ ymd2ord st.tm_year st.tm_mon st.tm_mday :=
    ymd2ord_lb _ _ _ hv.1 hv.2.2.2.2.1
  have hub := within_year_ub st.tm_year st.tm_mon st.tm_mday
    hv.2.2.1 hv.2.2.2.1 hv.2.2.2.2.1 hv.2.2.2.2.2.1
  -- lower bound: ymd2ord (y - k) 1 1 + 365 * k ≤ ymd2ord y 1 1 for the
  -- decrement magnitude k
  have hk : st.tm_year - (-(yrDecN rpt st.tm_year)).toNat ≥ 2001 := by
    have := hv.1; omega
  have hc1 := jan1_chain (st.tm_year - (-(yrDecN rpt st.tm_year)).toNat)
    (by omega) ((-(yrDecN rpt st.tm_year)).toNat)
  have hyy : st.tm_year - (-(yrDecN rpt st.tm_year)).toNat
      + (-(yrDecN rpt st.tm_year)).toNat = st.tm_year := by
    have := hv.1; omega
  rw [hyy] at hc1
  have hc3 := jan1_chain 2001 (by omega)
    (st.tm_year - (-(yrDecN rpt st.tm_year)).toNat - 2001)
  have hyy2 : 2001 + (st.tm_year - (-(yrDecN rpt st.tm_year)).toNat - 2001)
      = st.tm_year - (-(yrDecN rpt st.tm_year)).toNat := by omega
  rw [hyy2] at hc3
  have hwlb := within_year_lb st.tm_year st.tm_mon st.tm_mday hv.2.2.2.2.1
  have hc2 := dec31_chain st.tm_year (by have := hv.1; omega)
    (2037 - st.tm_year)
  have hyy3 : st.tm_year + (2037 - st.tm_year) = 2037 := by
    have := hv.2.1; omega
  rw [hyy3] at hc2
  have h37 : ymd2ord 2037 12 31 = 743999 := by decide
  have h01 : ymd2ord 2001 1 1 = 730486 := by decide
  have hrange := ord2ymd_year_range
    ((ymd2ord st.tm_year st.tm_mon st.tm_mday : Int)
      + yrDecN rpt st.tm_year * 365).toNat
    (by omega) (by omega)
  refine ⟨_, rfl, ?_, ?_, ?_, ?_, ?_, ?_⟩
  · rw [hsh]; exact hrange.1
  · rw [hsh]; exact hrange.2
  · rw [hsh]
  · rw [hsh]
  · rw [hsh]
  · intro hy01
    have hn0 := b4 hy01
    rw [hn0]
    norm_num [timedeltaDays]
    exact fromtimestamp_mktime st hv

theorem dayInc_effect (rpt : Bool) (st : StructTime) (hv : validSt st) :
    ∃ st', applyAction SM.DayInc rpt st = some st' ∧
      st'.tm_year = st.tm_year ∧
      st'.tm_hour = st.tm_hour ∧ st'.tm_min = st.tm_min ∧
      st'.tm_sec = st.tm_sec := by
  obtain ⟨hy1, hy2, hm1, hm2, hd1, hd2, hh, hmi, hs⟩ := hv
  have hd31 : st.tm_mday ≤ 31 :=
    le_trans hd2 (days_in_month_le st.tm_year st.tm_mon)
  obtain ⟨b1, b2, b3⟩ := dayIncN_cases rpt st.tm_mon st.tm_mday hd1 hd31
  have hv' : validSt st := ⟨hy1, hy2, hm1, hm2, hd1, hd2, hh, hmi, hs⟩
  have hsh := shift_whole_days st hv' (dayIncN rpt st.tm_mon st.tm_mday)
    (by omega)
  have hwlb := within_year_lb st.tm_year st.tm_mon st.tm_mday hd1
  have hoff := ymd2ord_offset st.tm_year st.tm_mon st.tm_mday hm1 hd1
  have hdo := dec31_offset st.tm_year
  -- the shifted ordinal stays inside the year bracket
  have hyear := ord2ymd_year_eq st.tm_year
    ((ymd2ord st.tm_year st.tm_mon st.tm_mday : Int)
      + dayIncN rpt st.tm_mon st.tm_mday).toNat
    hy1 hy2
    (by omega)
    (by
      by_cases hm12 : st.tm_mon = 12
      · -- December: the clamp keeps day + n at or below 31
        have hb := b3 hm12
        have hDBM : DAYS_BEFORE_MONTH st.tm_mon = 334 := by rw [hm12]; rfl
        have hadj : (if 2 < st.tm_mon && is_leap st.tm_year then 1 else 0)
            = (if is_leap st.tm_year then 1 else 0) := by
          rw [hm12]; norm_num
        rw [hadj] at hoff
        cases hleap : is_leap st.tm_year <;>
          simp only [hleap, Bool.false_eq_true, if_false, if_true]
            at hoff hdo <;>
          omega
      · -- January..November: day + 10 cannot reach past Dec 31
        have hmle : st.tm_mon ≤ 11 := by omega
        have hb11 := DAYS_BEFORE_MONTH_le_11 st.tm_mon hm1 hmle
        have hadj : (if 2 < st.tm_mon && is_leap st.tm_year then 1 else 0) ≤ 1 := by
          split <;> omega
        cases hleap : is_leap st.tm_year <;>
          simp only [hleap, Bool.false_eq_true, if_false, if_true] at hdo <;>
          omega)
  refine ⟨_, rfl, ?_, ?_, ?_, ?_⟩
  · rw [hsh]; exact hyear
  · rw [hsh]
  · rw [hsh]
  · rw [hsh]

theorem dayDec_effect (rpt : Bool) (st : StructTime) (hv : validSt st) :
    ∃ st', applyAction SM.DayDec rpt st = some st' ∧
      st'.tm_year = st.tm_year ∧
      st'.tm_hour = st.tm_hour ∧ st'.tm_min = st.tm_min ∧
      st'.tm_sec = st.tm_sec := by
  obtain ⟨hy1, hy2, hm1, hm2, hd1, hd2, hh, hmi, hs⟩ := hv
  have hd31 : st.tm_mday ≤ 31 :=
    le_trans hd2 (days_in_month_le st.tm_year st.tm_mon)
  obtain ⟨b1, b2, b3⟩ := dayDecN_cases rpt st.tm_mon st.tm_mday hd1 hd31
  have hv' : validSt st := ⟨hy1, hy2, hm1, hm2, hd1, hd2, hh, hmi, hs⟩
  have hsh := shift_whole_days st hv' (dayDecN rpt st.tm_mon st.tm_mday)
    (by omega)
  have hwub := within_year_ub st.tm_year st.tm_mon st.tm_mday hm1 hm2 hd1 hd2
  have hoff := ymd2ord_offset st.tm_year st.tm_mon st.tm_mday hm1 hd1
  have hyear := ord2ymd_year_eq st.tm_year
    ((ymd2ord st.tm_year st.tm_mon st.tm_mday : Int)
      + dayDecN rpt st.tm_mon st.tm_mday).toNat
    hy1 hy2
    (by
      by_cases hm1' : st.tm_mon = 1
      · -- January: the clamp keeps day + n at or above 1
        have hb := b3 hm1'
        have hDBM : DAYS_BEFORE_MONTH st.tm_mon = 0 := by rw [hm1']; rfl
        have hadj : (if 2 < st.tm_mon && is_leap st.tm_year then 1 else 0)
            = 0 := by
          rw [hm1']; norm_num
        rw [hadj] at hoff
        omega
      · -- February..December: at most 10 days back stays past Jan 31
        have hmge : 2 ≤ st.tm_mon := by omega
        have hbge := DAYS_BEFORE_MONTH_ge_2 st.tm_mon hmge hm2
        have hadj : 0 ≤ (if 2 < st.tm_mon && is_leap st.tm_year then 1 else 0) := by
          split <;> omega
        omega)
    (by omega)
  refine ⟨_, rfl, ?_, ?_, ?_, ?_⟩
  · rw [hsh]; exact hyear
  · rw [hsh]
  · rw [hsh]
  · rw [hsh]

theorem hrInc_effect (rpt : Bool) (st : StructTime) (hv : validSt st) :
    ∃ st', applyAction SM.HrInc rpt st = some st' ∧
      st'.tm_year = st.tm_year ∧ st'.tm_mon = st.tm_mon ∧
      st'.tm_mday = st.tm_mday ∧
      st'.tm_min = st.tm_min ∧ st'.tm_sec = st.tm_sec := by
  obtain ⟨b1, b2, b3⟩ := hrIncN_cases rpt st.tm_hour hv.2.2.2.2.2.2.1
  have hmi := hv.2.2.2.2.2.2.2.1
  have hs := hv.2.2.2.2.2.2.2.2
  have hsh := shift_within_day st hv (timedeltaHours (hrIncN rpt st.tm_hour))
    (by simp only [tod, timedeltaHours]; omega)
    (by simp only [tod, timedeltaHours]; omega)
  refine ⟨_, rfl, ?_, ?_, ?_, ?_, ?_⟩ <;> rw [hsh]
  · simp only [tod, timedeltaHours]; omega
  · simp only [tod, timedeltaHours]; omega

theorem hrDec_effect (rpt : Bool) (st : StructTime) (hv : validSt st) :
    ∃ st', applyAction SM.HrDec rpt st = some st' ∧
      st'.tm_year = st.tm_year ∧ st'.tm_mon = st.tm_mon ∧
      st'.tm_mday = st.tm_mday ∧
      st'.tm_min = st.tm_min ∧ st'.tm_sec = st.tm_sec := by
  obtain ⟨b1, b2, b3⟩ := hrDecN_cases rpt st.tm_hour hv.2.2.2.2.2.2.1
  have hmi := hv.2.2.2.2.2.2.2.1
  have hs := hv.2.2.2.2.2.2.2.2
  have hsh := shift_within_day st hv (timedeltaHours (hrDecN rpt st.tm_hour))
    (by simp only [tod, timedeltaHours]; omega)
    (by simp only [tod, timedeltaHours]; omega)
  refine ⟨_, rfl, ?_, ?_, ?_, ?_, ?_⟩ <;> rw [hsh]
  · simp only [tod, timedeltaHours]; omega
  · simp only [tod, timedeltaHours]; omega

theorem minInc_effect (rpt : Bool) (st : StructTime) (hv : validSt st) :
    ∃ st', applyAction SM.MinInc rpt st = some st' ∧
      st'.tm_year = st.tm_year ∧ st'.tm_mon = st.tm_mon ∧
      st'.tm_mday = st.tm_mday ∧ st'.tm_sec = st.tm_sec ∧
      (rpt = false → st.tm_hour = 23 → st.tm_min = 59 → st' = st) := by
  have hh := hv.2.2.2.2.2.2.1
  have hmi := hv.2.2.2.2.2.2.2.1
  have hs := hv.2.2.2.2.2.2.2.2
  obtain ⟨b1, b2, b3, b4⟩ := minIncN_cases rpt st.tm_hour st.tm_min hh hmi
  have hbound : (tod st : Int) + timedeltaMinutes (minIncN rpt st.tm_hour st.tm_min)
      < 86400 := by
    by_cases h23 : st.tm_hour = 23
    · have := b3 h23
      simp only [tod, timedeltaMinutes]
      omega
    · have h22 : st.tm_hour ≤ 22 := by omega
      simp only [tod, timedeltaMinutes]
      omega
  have hsh := shift_within_day st hv
    (timedeltaMinutes (minIncN rpt st.tm_hour st.tm_min))
    (by simp only [tod, timedeltaMinutes]; omega) hbound
  refine ⟨_, rfl, ?_, ?_, ?_, ?_, ?_⟩
  · rw [hsh]
  · rw [hsh]
  · rw [hsh]
  · rw [hsh]
    simp only [tod, timedeltaMinutes]
    omega
  · intro hr h23 h59
    have hn0 := b4 hr h23 h59
    rw [hn0]
    norm_num [timedeltaMinutes]
    exact fromtimestamp_mktime st hv

theorem minDec_effect (rpt : Bool) (st : StructTime) (hv : validSt st) :
    ∃ st', applyAction SM.MinDec rpt st = some st' ∧
      st'.tm_year = st.tm_year ∧ st'.tm_mon = st.tm_mon ∧
      st'.tm_mday = st.tm_mday ∧ st'.tm_sec = st.tm_sec := by
  have hh := hv.2.2.2.2.2.2.1
  have hmi := hv.2.2.2.2.2.2.2.1
  have hs := hv.2.2.2.2.2.2.2.2
  obtain ⟨b1, b2, b3⟩ := minDecN_cases rpt st.tm_hour st.tm_min hh hmi
  have hbound : 0 ≤ (tod st : Int)
      + timedeltaMinutes (minDecN rpt st.tm_hour st.tm_min) := by
    by_cases h0 : st.tm_hour = 0
    · have := b3 h0
      simp only [tod, timedeltaMinutes]
      omega
    · have h1 : 1 ≤ st.tm_hour := by omega
      simp only [tod, timedeltaMinutes]
      omega
  have hsh := shift_within_day st hv
    (timedeltaMinutes (minDecN rpt st.tm_hour st.tm_min))
    hbound (by simp only [tod, timedeltaMinutes]; omega)
  refine ⟨_, rfl, ?_, ?_, ?_, ?_⟩
  · rw [hsh]
  · rw [hsh]
  · rw [hsh]
  · rw [hsh]
    simp only [tod, timedeltaMinutes]
    omega

theorem sec00_round_down (rpt : Bool) (st : StructTime) (hv : validSt st)
    (h30 : st.tm_sec ≤ 30) :
    applyAction SM.Sec00 rpt st
      = some ⟨st.tm_year, st.tm_mon, st.tm_mday, st.tm_hour, st.tm_min, 0⟩ := by
  have hh := hv.2.2.2.2.2.2.1
  have hmi := hv.2.2.2.2.2.2.2.1
  have hs := hv.2.2.2.2.2.2.2.2
  have hd : sec00Delta st.tm_sec = -(st.tm_sec : Int) := by
    unfold sec00Delta; rw [if_pos h30]
  have hsh := shift_within_day st hv
    (timedeltaSeconds (sec00Delta st.tm_sec))
    (by simp only [tod, timedeltaSeconds, hd]; omega)
    (by simp only [tod, timedeltaSeconds, hd]; omega)
  have heq : applyAction SM.Sec00 rpt st
      = some (fromtimestamp
          (mktime st + timedeltaSeconds (sec00Delta st.tm_sec))) := rfl
  rw [heq, hsh]
  have e1 : ((tod st : Int) + timedeltaSeconds (sec00Delta st.tm_sec)).toNat
      = st.tm_hour * 3600 + st.tm_min * 60 := by
    simp only [tod, timedeltaSeconds, hd]; omega
  rw [e1]
  have e2 : (st.tm_hour * 3600 + st.tm_min * 60) / 3600 = st.tm_hour := by omega
  have e3 : (st.tm_hour * 3600 + st.tm_min * 60) % 3600 / 60 = st.tm_min := by
    omega
  have e4 : (st.tm_hour * 3600 + st.tm_min * 60) % 60 = 0 := by omega
  rw [e2, e3, e4]

theorem fromtimestamp_sec (t : Int) :
    (fromtimestamp t).tm_sec = t.toNat % 86400 % 60 := rfl

theorem sec00_round_up (rpt : Bool) (st : StructTime) (hv : validSt st)
    (h30 : 30 < st.tm_sec) :
    ∃ st', applyAction SM.Sec00 rpt st = some st' ∧ st'.tm_sec = 0 := by
  obtain ⟨hy1, hy2, hm1, hm2, hd1, hd2, hh, hmi, hs⟩ := hv
  have hlb : 730486 ≤ ymd2ord st.tm_year st.tm_mon st.tm_mday :=
    ymd2ord_lb _ _ _ hy1 hd1
  have hd : sec00Delta st.tm_sec = 60 - (st.tm_sec : Int) := by
    unfold sec00Delta; rw [if_neg (by omega)]
  refine ⟨_, rfl, ?_⟩
  rw [fromtimestamp_sec]
  simp only [timedeltaSeconds, hd, mktime, EPOCH_ORD]
  omega

/-! ## Reduction of `handleGamepad` on the edit states -/

theorem hg_SetYr_UP (rpt : Bool) (st : StructTime) :
    handleGamepad SM.SetYr SM.UP rpt st
      = ⟨SM.SetYr, [], true, applyAction SM.YrInc rpt st⟩ := rfl

theorem hg_SetYr_DOWN (rpt : Bool) (st : StructTime) :
    handleGamepad SM.SetYr SM.DOWN rpt st
      = ⟨SM.SetYr, [], true, applyAction SM.YrDec rpt st⟩ := rfl

theorem hg_SetMDay_UP (rpt : Bool) (st : StructTime) :
    handleGamepad SM.SetMDay SM.UP rpt st
      = ⟨SM.SetMDay, [], true, applyAction SM.DayInc rpt st⟩ := rfl

theorem hg_SetMDay_DOWN (rpt : Bool) (st : StructTime) :
    handleGamepad SM.SetMDay SM.DOWN rpt st
      = ⟨SM.SetMDay, [], true, applyAction SM.DayDec rpt st⟩ := rfl

theorem hg_SetHour_UP (rpt : Bool) (st : StructTime) :
    handleGamepad SM.SetHour SM.UP rpt st
      = ⟨SM.SetHour, [], true, applyAction SM.HrInc rpt st⟩ := rfl

theorem hg_SetHour_DOWN (rpt : Bool) (st : StructTime) :
    handleGamepad SM.SetHour SM.DOWN rpt st
      = ⟨SM.SetHour, [], true, applyAction SM.HrDec rpt st⟩ := rfl

theorem hg_SetHMin_UP (rpt : Bool) (st : StructTime) :
    handleGamepad SM.SetHMin SM.UP rpt st
      = ⟨SM.SetHMin, [], true, applyAction SM.MinInc rpt st⟩ := rfl

theorem hg_SetHMin_DOWN (rpt : Bool) (st : StructTime) :
    handleGamepad SM.SetHMin SM.DOWN rpt st
      = ⟨SM.SetHMin, [], true, applyAction SM.MinDec rpt st⟩ := rfl

theorem hg_SetSec_UP (rpt : Bool) (st : StructTime) :
    handleGamepad SM.SetSec SM.UP rpt st
      = ⟨SM.SetSec, [], true, applyAction SM.Sec00 rpt st⟩ := rfl

theorem hg_SetSec_DOWN (rpt : Bool) (st : StructTime) :
    handleGamepad SM.SetSec SM.DOWN rpt st
      = ⟨SM.SetSec, [], true, applyAction SM.Sec00 rpt st⟩ := rfl

/-! ## Claim theorems -/

/-- Claim C1, amended: the original field-isolation claim fails (a day
increment on Jan 31 changes the month; see the counterexample).  What the
code guarantees: hour edits change only the hour field; minute edits
preserve the date and the seconds (the step may carry into the hour); day
edits preserve the year and the time of day (the step may carry into the
month); year edits preserve the time of day. -/
theorem C1_field_isolation_amended (st : StructTime) (hv : validSt st)
    (rpt : Bool) (b : Nat) (hb : b = SM.UP ∨ b = SM.DOWN) :
    (∃ st', (handleGamepad SM.SetHour b rpt st).rtcWrite = some st' ∧
       st'.tm_year = st.tm_year ∧ st'.tm_mon = st.tm_mon ∧
       st'.tm_mday = st.tm_mday ∧
       st'.tm_min = st.tm_min ∧ st'.tm_sec = st.tm_sec) ∧
    (∃ st', (handleGamepad SM.SetHMin b rpt st).rtcWrite = some st' ∧
       st'.tm_year = st.tm_year ∧ st'.tm_mon = st.tm_mon ∧
       st'.tm_mday = st.tm_mday ∧ st'.tm_sec = st.tm_sec) ∧
    (∃ st', (handleGamepad SM.SetMDay b rpt st).rtcWrite = some st' ∧
       st'.tm_year = st.tm_year ∧
       st'.tm_hour = st.tm_hour ∧ st'.tm_min = st.tm_min ∧
       st'.tm_sec = st.tm_sec) ∧
    (∃ st', (handleGamepad SM.SetYr b rpt st).rtcWrite = some st' ∧
       st'.tm_hour = st.tm_hour ∧ st'.tm_min = st.tm_min ∧
       st'.tm_sec = st.tm_sec) := by
  rcases hb with rfl | rfl
  · refine ⟨?_, ?_, ?_, ?_⟩
    · obtain ⟨st', he, p1, p2, p3, p4, p5⟩ := hrInc_effect rpt st hv
      rw [hg_SetHour_UP]
      exact ⟨st', he, p1, p2, p3, p4, p5⟩
    · obtain ⟨st', he, p1, p2, p3, p4, _⟩ := minInc_effect rpt st hv
      rw [hg_SetHMin_UP]
      exact ⟨st', he, p1, p2, p3, p4⟩
    · obtain ⟨st', he, p1, p2, p3, p4⟩ := dayInc_effect rpt st hv
      rw [hg_SetMDay_UP]
      exact ⟨st', he, p1, p2, p3, p4⟩
    · obtain ⟨st', he, _, _, p3, p4, p5, _⟩ := yrInc_effect rpt st hv
      rw [hg_SetYr_UP]
      exact ⟨st', he, p3, p4, p5⟩
  · refine ⟨?_, ?_, ?_, ?_⟩
    · obtain ⟨st', he, p1, p2, p3, p4, p5⟩ := hrDec_effect rpt st hv
      rw [hg_SetHour_DOWN]
      exact ⟨st', he, p1, p2, p3, p4, p5⟩
    · obtain ⟨st', he, p1, p2, p3, p4⟩ := minDec_effect rpt st hv
      rw [hg_SetHMin_DOWN]
      exact ⟨st', he, p1, p2, p3, p4⟩
    · obtain ⟨st', he, p1, p2, p3, p4⟩ := dayDec_effect rpt st hv
      rw [hg_SetMDay_DOWN]
      exact ⟨st', he, p1, p2, p3, p4⟩
    · obtain ⟨st', he, _, _, p3, p4, p5, _⟩ := yrDec_effect rpt st hv
      rw [hg_SetYr_DOWN]
      exact ⟨st', he, p3, p4, p5⟩

/-- Claim C1, counterexample: a single-step day increment on 2024-01-31
(in the month-day edit state) writes back 2024-02-01 — editing the day
changed the month, contradicting "editing the day never changes the
month or year". -/
theorem C1_counterexample :
    (handleGamepad SM.SetMDay SM.UP false ⟨2024, 1, 31, 0, 0, 0⟩).rtcWrite
      = some ⟨2024, 2, 1, 0, 0, 0⟩ ∧ (2 : Nat) ≠ 1 := by
  constructor
  · decide
  · decide

/-- Claim C1, witness for the amended theorem at a concrete valid input. -/
theorem C1_witness :
    ∃ st', (handleGamepad SM.SetHour SM.UP false
        ⟨2024, 9, 14, 1, 23, 45⟩).rtcWrite = some st' ∧
      st'.tm_year = 2024 ∧ st'.tm_mon = 9 ∧ st'.tm_mday = 14 ∧
      st'.tm_min = 23 ∧ st'.tm_sec = 45 :=
  (C1_field_isolation_amended ⟨2024, 9, 14, 1, 23, 45⟩ (by decide) false
    SM.UP (Or.inl rfl)).1

/-- Claim C2, amended: the original claim fails — minute edits clamp only
at the edges of the day (hour 23 upward, hour 0 downward), so away from
those hours a minute step may carry into the hour (see the
counterexample).  What the code guarantees: minute edits never change the
date (or the seconds), and at 23:59 a single-step increment leaves the
timestamp unchanged. -/
theorem C2_minute_clamp_amended (st : StructTime) (hv : validSt st)
    (rpt : Bool) (b : Nat) (hb : b = SM.UP ∨ b = SM.DOWN) :
    ∃ st', (handleGamepad SM.SetHMin b rpt st).rtcWrite = some st' ∧
      st'.tm_year = st.tm_year ∧ st'.tm_mon = st.tm_mon ∧
      st'.tm_mday = st.tm_mday ∧ st'.tm_sec = st.tm_sec ∧
      (b = SM.UP → rpt = false → st.tm_hour = 23 → st.tm_min = 59 →
        st' = st) := by
  rcases hb with rfl | rfl
  · obtain ⟨st', he, p1, p2, p3, p4, p5⟩ := minInc_effect rpt st hv
    rw [hg_SetHMin_UP]
    exact ⟨st', he, p1, p2, p3, p4, fun _ => p5⟩
  · obtain ⟨st', he, p1, p2, p3, p4⟩ := minDec_effect rpt st hv
    rw [hg_SetHMin_DOWN]
    refine ⟨st', he, p1, p2, p3, p4, ?_⟩
    intro hud
    exact absurd hud (by decide)

/-- Claim C2, counterexample: a repeat minute increment at 05:55 writes
back 06:05 — the hour rolled over even though the minute never left
[0,59] of a day, contradicting "never rolls the hour over". -/
theorem C2_counterexample :
    (handleGamepad SM.SetHMin SM.UP true ⟨2024, 9, 14, 5, 55, 0⟩).rtcWrite
      = some ⟨2024, 9, 14, 6, 5, 0⟩ ∧ (6 : Nat) ≠ 5 := by
  constructor
  · decide
  · decide

/-- Claim C2, witness: the amended theorem at 2024-09-14 23:59:59,
single-step UP — the write leaves the timestamp unchanged. -/
theorem C2_witness :
    ∃ st', (handleGamepad SM.SetHMin SM.UP false
        ⟨2024, 9, 14, 23, 59, 59⟩).rtcWrite = some st' ∧
      st'.tm_year = 2024 ∧ st'.tm_mon = 9 ∧ st'.tm_mday = 14 ∧
      st'.tm_sec = 59 ∧
      (SM.UP = SM.UP → false = false → (23 : Nat) = 23 → (59 : Nat) = 59 →
        st' = ⟨2024, 9, 14, 23, 59, 59⟩) :=
  C2_minute_clamp_amended ⟨2024, 9, 14, 23, 59, 59⟩ (by decide) false
    SM.UP (Or.inl rfl)

/-- Claim C6: year increments and decrements (step 1 on an edge, 5 on
repeat) keep the year inside [2001, 2037], truncating the step rather
than wrapping, and an increment at 2037 (or a decrement at 2001) leaves
the whole timestamp unchanged. -/
theorem C6_year_bounds (st : StructTime) (hv : validSt st) (rpt : Bool) :
    (∃ st', (handleGamepad SM.SetYr SM.UP rpt st).rtcWrite = some st' ∧
       2001 ≤ st'.tm_year ∧ st'.tm_year ≤ 2037 ∧
       (st.tm_year = 2037 → st' = st)) ∧
    (∃ st', (handleGamepad SM.SetYr SM.DOWN rpt st).rtcWrite = some st' ∧
       2001 ≤ st'.tm_year ∧ st'.tm_year ≤ 2037 ∧
       (st.tm_year = 2001 → st' = st)) := by
  constructor
  · obtain ⟨st', he, p1, p2, _, _, _, p6⟩ := yrInc_effect rpt st hv
    rw [hg_SetYr_UP]
    exact ⟨st', he, p1, p2, p6⟩
  · obtain ⟨st', he, p1, p2, _, _, _, p6⟩ := yrDec_effect rpt st hv
    rw [hg_SetYr_DOWN]
    exact ⟨st', he, p1, p2, p6⟩

/-- Claim C6, witness: at year 2037 an UP edge leaves the timestamp
unchanged; at year 2001 a DOWN edge leaves it unchanged. -/
theorem C6_witness :
    (∃ st', (handleGamepad SM.SetYr SM.UP false
        ⟨2037, 12, 31, 23, 59, 59⟩).rtcWrite = some st' ∧
      2001 ≤ st'.tm_year ∧ st'.tm_year ≤ 2037 ∧
      ((2037 : Nat) = 2037 → st' = ⟨2037, 12, 31, 23, 59, 59⟩)) ∧
    (∃ st', (handleGamepad SM.SetYr SM.DOWN false
        ⟨2037, 12, 31, 23, 59, 59⟩).rtcWrite = some st' ∧
      2001 ≤ st'.tm_year ∧ st'.tm_year ≤ 2037 ∧
      ((2037 : Nat) = 2001 → st' = ⟨2037, 12, 31, 23, 59, 59⟩)) :=
  C6_year_bounds ⟨2037, 12, 31, 23, 59, 59⟩ (by decide) false

/-- Claim C7: in the edit-seconds state, UP or DOWN applies the delta
`-second` when `second ≤ 30` and `60 - second` otherwise, as one
timestamp adjustment; with `second ≤ 30` the write is the same timestamp
rounded down to :00 of the current minute, otherwise the write lands on
the next minute boundary (seconds field 0).  In particular second = 29
gives delta −29 and second = 31 gives delta +29. -/
theorem C7_round_to_minute (st : StructTime) (hv : validSt st) (rpt : Bool)
    (b : Nat) (hb : b = SM.UP ∨ b = SM.DOWN) :
    (handleGamepad SM.SetSec b rpt st).rtcWrite
      = some (fromtimestamp (mktime st
          + (if st.tm_sec ≤ 30 then -(st.tm_sec : Int)
             else 60 - (st.tm_sec : Int)))) ∧
    (st.tm_sec ≤ 30 →
      (handleGamepad SM.SetSec b rpt st).rtcWrite
        = some ⟨st.tm_year, st.tm_mon, st.tm_mday, st.tm_hour, st.tm_min, 0⟩) ∧
    (30 < st.tm_sec →
      ∃ st', (handleGamepad SM.SetSec b rpt st).rtcWrite = some st' ∧
        st'.tm_sec = 0) ∧
    sec00Delta 29 = -29 ∧ sec00Delta 31 = 29 := by
  have hred : (handleGamepad SM.SetSec b rpt st).rtcWrite
      = applyAction SM.Sec00 rpt st := by
    rcases hb with rfl | rfl
    · rw [hg_SetSec_UP]
    · rw [hg_SetSec_DOWN]
  refine ⟨?_, ?_, ?_, by decide, by decide⟩
  · rw [hred]
    rfl
  · intro h30
    rw [hred]
    exact sec00_round_down rpt st hv h30
  · intro h30
    obtain ⟨st', he, hz⟩ := sec00_round_up rpt st hv h30
    rw [hred]
    exact ⟨st', he, hz⟩

/-- Claim C7, witness: at 01:23:29 the write rounds down to 01:23:00; the
general delta formula holds there. -/
theorem C7_witness :
    (handleGamepad SM.SetSec SM.UP false ⟨2024, 9, 14, 1, 23, 29⟩).rtcWrite
      = some (fromtimestamp (mktime ⟨2024, 9, 14, 1, 23, 29⟩
          + (if (29 : Nat) ≤ 30 then -((29 : Nat) : Int)
             else 60 - ((29 : Nat) : Int)))) ∧
    ((29 : Nat) ≤ 30 →
      (handleGamepad SM.SetSec SM.UP false ⟨2024, 9, 14, 1, 23, 29⟩).rtcWrite
        = some ⟨2024, 9, 14, 1, 23, 0⟩) ∧
    (30 < (29 : Nat) →
      ∃ st', (handleGamepad SM.SetSec SM.UP false
          ⟨2024, 9, 14, 1, 23, 29⟩).rtcWrite = some st' ∧ st'.tm_sec = 0) ∧
    sec00Delta 29 = -29 ∧ sec00Delta 31 = 29 := by
  have h := C7_round_to_minute ⟨2024, 9, 14, 1, 23, 29⟩ (by decide) false
    SM.UP (Or.inl rfl)
  exact ⟨h.1, fun _ => h.2.1 (by decide), h.2.2⟩

/-- Claim C3: the tick counter wraps at `2^29`, but `elapsed_ms` masks
with `0x3fffffff = 2^30 - 1` (the source comment claims
`(2**29)-1 = 0x3fffffff`, which is false).  Across a wrap the function
returns a value off by `2^29`: one true millisecond elapsed from
`prev = 2^29 - 1` yields 536870913, not 1. -/
theorem C3_wrap_bug_eval :
    ticks_wrap (536870911 + 1) = 0 ∧
    elapsed_ms 536870911 (ticks_wrap (536870911 + 1)) = 536870913 ∧
    (536870913 : Int) ≠ 1 := by
  refine ⟨by decide, by decide, by decide⟩

/-- Claim C4: the transition table is total — every (state, button) pair
in the declared alphabet has a defined response code, and every response
code the table can produce has an explicit branch in the handler. -/
theorem C4_transition_total :
    ∀ s, s < 7 → ∀ b, b < 7 →
      (transition s b).isSome = true ∧
      handledCode ((transition s b).getD 0) = true := by decide

/-- Claim C4, witness at (setYr, UP). -/
theorem C4_witness :
    (transition 2 0).isSome = true ∧
    handledCode ((transition 2 0).getD 0) = true :=
  C4_transition_total 2 (by decide) 0 (by decide)

/-- Claim C9, counterexample: from the plain hhmm view, pressing A+B
produces no input event at all — `handle_input` ignores the two-button
mask in both the edge and the repeat paths, and the whole polling tick
delivers no event — so the menu state stays at the plain view; the state
machine of src/statemachine.py has no "demo" state for it to enter. -/
theorem C9_counterexample :
    handle_input 0 (Pad.A ||| Pad.B) false = none ∧
    handle_input 0 (Pad.A ||| Pad.B) true = none ∧
    (tickEvents ⟨0, 0, 0⟩ (Pad.A ||| Pad.B) 2).2 = [] := by
  refine ⟨by decide, by decide, by decide⟩

/-- Claim C9, amended: pressing A+B delivers no event in any loop state
(there is no demo state to enter, so the menu state is unchanged), and
pressing B in any menu state returns the machine to the plain hhmm live
view, clearing both helper-text lines. -/
theorem C9_b_exit_amended :
    (∀ (ls : LoopState) (dt : Nat),
      (tickEvents ls (Pad.A ||| Pad.B) dt).2 = []) ∧
    (∀ s, s < 7 → ∀ (rpt : Bool) (st : StructTime),
      handleGamepad s SM.B rpt st
        = ⟨SM.HHMM, [("", true), ("", false)], false, none⟩) := by
  constructor
  · have h1 : ∀ p r, handle_input p (Pad.A ||| Pad.B) r = none := by
      intro p r
      have hAB : Pad.A ||| Pad.B = 12288 := by decide
      unfold handle_input
      rw [hAB]
      cases r <;>
        simp [Pad.A, Pad.B, Pad.UP, Pad.DOWN, Pad.LEFT, Pad.RIGHT, Pad.START]
    intro ls dt
    simp only [tickEvents, updTimers, h1, Option.toList_none]
    split_ifs <;> rfl
  · intro s hs rpt st
    interval_cases s <;> rfl

/-- Claim C9, witness: the amended theorem at the plain view with B. -/
theorem C9_witness :
    (tickEvents ⟨Pad.B, 0, 0⟩ (Pad.A ||| Pad.B) 7).2 = [] ∧
    handleGamepad SM.HHMM SM.B false ⟨2024, 9, 14, 1, 23, 45⟩
      = ⟨SM.HHMM, [("", true), ("", false)], false, none⟩ :=
  ⟨C9_b_exit_amended.1 ⟨Pad.B, 0, 0⟩ 7,
   C9_b_exit_amended.2 SM.HHMM (by decide) false ⟨2024, 9, 14, 1, 23, 45⟩⟩

/-- Claim C10: `handleGamepad` changes the menu state only when the table
response is one of the seven state-transition codes; a `NOP` or an
RTC-editing response leaves the state unchanged, and a `NOP` performs no
display call and no RTC access. -/
theorem C10_state_frame :
    ∀ s b, s < 7 → b < 7 → ∀ (rpt : Bool) (st : StructTime),
      ((handleGamepad s b rpt st).state ≠ s →
        (transition s b).getD SM.NOP < 7) ∧
      (SM.NOP ≤ (transition s b).getD SM.NOP →
        (handleGamepad s b rpt st).state = s) ∧
      ((transition s b).getD SM.NOP = SM.NOP →
        (handleGamepad s b rpt st).msgs = [] ∧
        (handleGamepad s b rpt st).rtcRead = false ∧
        (handleGamepad s b rpt st).rtcWrite = none) := by
  intro s b hs hb rpt st
  interval_cases s <;> interval_cases b <;>
    exact ⟨fun h => by first | decide | exact absurd rfl h,
           fun h => by first | rfl | exact absurd h (by decide),
           fun h => by first | exact ⟨rfl, rfl, rfl⟩ | exact absurd h (by decide)⟩

/-- Claim C10, witness at (setYr, UP) — an RTC-editing response: the
state is unchanged. -/
theorem C10_witness :
    ((handleGamepad 2 0 false ⟨2024, 9, 14, 1, 23, 45⟩).state ≠ 2 →
      (transition 2 0).getD SM.NOP < 7) ∧
    (SM.NOP ≤ (transition 2 0).getD SM.NOP →
      (handleGamepad 2 0 false ⟨2024, 9, 14, 1, 23, 45⟩).state = 2) ∧
    ((transition 2 0).getD SM.NOP = SM.NOP →
      (handleGamepad 2 0 false ⟨2024, 9, 14, 1, 23, 45⟩).msgs = [] ∧
      (handleGamepad 2 0 false ⟨2024, 9, 14, 1, 23, 45⟩).rtcRead = false ∧
      (handleGamepad 2 0 false ⟨2024, 9, 14, 1, 23, 45⟩).rtcWrite = none) :=
  C10_state_frame 2 0 (by decide) (by decide) false ⟨2024, 9, 14, 1, 23, 45⟩

/-! ## Per-tick structure of the input loop -/

theorem handle_input_flag (p b : Nat) (r : Bool) (x : Nat × Bool)
    (h : handle_input p b r = some x) : x.2 = r := by
  unfold handle_input at h
  cases r <;>
    simp only [Bool.false_eq_true, if_false, if_true] at h <;>
    split_ifs at h <;>
    (try injection h with h1) <;>
    (try subst h1) <;>
    rfl

theorem handle_input_multibit (p b : Nat) (r : Bool) (i j : Nat) (hij : i ≠ j)
    (hi : b.testBit i = true) (hj : b.testBit j = true) :
    handle_input p b r = none := by
  have hpow : ∀ k, b ≠ 2 ^ k := by
    intro k hbk
    subst hbk
    by_cases hik : i = k
    · subst hik
      rw [Nat.testBit_two_pow_of_ne hij] at hj
      exact absurd hj (by simp)
    · rw [Nat.testBit_two_pow_of_ne (fun h => hik h.symm)] at hi
      exact absurd hi (by simp)
  have hUP : b ≠ Pad.UP := by simpa [Pad.UP] using hpow 0
  have hDOWN : b ≠ Pad.DOWN := by simpa [Pad.DOWN] using hpow 1
  have hLEFT : b ≠ Pad.LEFT := by simpa [Pad.LEFT] using hpow 2
  have hRIGHT : b ≠ Pad.RIGHT := by simpa [Pad.RIGHT] using hpow 3
  have hSTART : b ≠ Pad.START := by simpa [Pad.START] using hpow 4
  have hA : b ≠ Pad.A := by simpa [Pad.A] using hpow 12
  have hB : b ≠ Pad.B := by simpa [Pad.B] using hpow 13
  unfold handle_input
  cases r <;> simp [hUP, hDOWN, hLEFT, hRIGHT, hSTART, hA, hB]

theorem tickEvents_event_cases (ls : LoopState) (buttons dt : Nat) :
    (tickEvents ls buttons dt).2 = [] ∨
    (∃ v, (tickEvents ls buttons dt).2 = [(v, true)]) ∨
    (∃ v, (tickEvents ls buttons dt).2 = [(v, false)]) := by
  unfold tickEvents updTimers
  by_cases hb0 : buttons = 0
  · subst hb0
    left
    have hnone : handle_input ls.prev_btn 0 false = none := by
      unfold handle_input
      simp [Pad.A, Pad.B, Pad.UP, Pad.DOWN, Pad.LEFT, Pad.RIGHT, Pad.START]
    simp [hnone]
  · simp only [if_neg hb0]
    by_cases hpb : ls.prev_btn ≠ buttons
    · -- timers reset: no repeat can fire; at most one edge event
      simp only [if_pos hpb]
      cases h : handle_input ls.prev_btn buttons false with
      | none => left; simp [h]
      | some x =>
        right; right
        refine ⟨x.1, ?_⟩
        have hx := handle_input_flag _ _ _ _ h
        simp [h]
        rw [← hx]
    · -- held: no edge event; at most one repeat event
      simp only [if_neg hpb]
      cases h : handle_input ls.prev_btn buttons true with
      | none =>
        left
        simp [h]
        split_ifs <;> rfl
      | some x =>
        have hx := handle_input_flag _ _ _ _ h
        by_cases h900 : 900 ≤ ls.hold_tmr + dt
        · by_cases heq : ls.hold_tmr + dt = ls.repeat_tmr + dt
          · right; left
            refine ⟨x.1, ?_⟩
            simp [h900, heq, h]
            rw [if_pos (show 900 ≤ ls.repeat_tmr + dt by omega), ← hx]
          · by_cases h300 : 300 ≤ ls.repeat_tmr + dt
            · right; left
              refine ⟨x.1, ?_⟩
              simp [h900, heq, h300, h]
              rw [← hx]
            · left; simp [h900, heq, h300]
        · left; simp [h900]

/-- Claim C8: on every polling tick at most one edge event and at most
one repeat event are delivered (in fact at most one event in total, so
never both), and a bitmask with more than one pressed button — no
designated combination exists — delivers no event at all. -/
theorem C8_event_multiplicity (ls : LoopState) (buttons dt : Nat) :
    ((tickEvents ls buttons dt).2.filter (fun e => e.2)).length ≤ 1 ∧
    ((tickEvents ls buttons dt).2.filter (fun e => !e.2)).length ≤ 1 ∧
    ¬(1 ≤ ((tickEvents ls buttons dt).2.filter (fun e => e.2)).length ∧
      1 ≤ ((tickEvents ls buttons dt).2.filter (fun e => !e.2)).length) ∧
    (∀ i j, i ≠ j → buttons.testBit i = true → buttons.testBit j = true →
      (tickEvents ls buttons dt).2 = []) := by
  refine ⟨?_, ?_, ?_, ?_⟩
  · rcases tickEvents_event_cases ls buttons dt with h | ⟨v, h⟩ | ⟨v, h⟩ <;>
      simp [h]
  · rcases tickEvents_event_cases ls buttons dt with h | ⟨v, h⟩ | ⟨v, h⟩ <;>
      simp [h]
  · rcases tickEvents_event_cases ls buttons dt with h | ⟨v, h⟩ | ⟨v, h⟩ <;>
      simp [h]
  · intro i j hij hi hj
    have h1 : handle_input ls.prev_btn buttons true = none :=
      handle_input_multibit _ _ _ i j hij hi hj
    have h2 : handle_input ls.prev_btn buttons false = none :=
      handle_input_multibit _ _ _ i j hij hi hj
    unfold tickEvents updTimers
    simp only [h1, h2, Option.toList_none]
    split_ifs <;> rfl

/-- Claim C8, witness: a tick with two buttons pressed (A+B) delivers
nothing; the multiplicity bounds hold on a firing single-button tick. -/
theorem C8_witness :
    ((tickEvents ⟨Pad.UP, 600, 600⟩ Pad.UP 300).2.filter
        (fun e => e.2)).length ≤ 1 ∧
    (tickEvents ⟨0, 0, 0⟩ (Pad.A ||| Pad.B) 2).2 = [] :=
  ⟨(C8_event_multiplicity ⟨Pad.UP, 600, 600⟩ Pad.UP 300).1,
   (C8_event_multiplicity ⟨0, 0, 0⟩ (Pad.A ||| Pad.B) 2).2.2.2 12 13
     (by decide) (by decide) (by decide)⟩

/-! ## Hold-repeat timing under a constant held button -/

theorem tick_const_cases (b : Nat) (hb : b = Pad.UP ∨ b = Pad.DOWN)
    (s : LoopState) (hprev : s.prev_btn = b) (dt : Nat) :
    (tickEvents s b dt).1.prev_btn = b ∧
    (tickEvents s b dt).1.hold_tmr = s.hold_tmr + dt ∧
    ((s.hold_tmr + dt < 900 ∧
        (tickEvents s b dt).1.repeat_tmr = s.repeat_tmr + dt ∧
        (tickEvents s b dt).2.length = 0) ∨
     (900 ≤ s.hold_tmr + dt ∧ s.hold_tmr + dt = s.repeat_tmr + dt ∧
        (tickEvents s b dt).1.repeat_tmr = s.repeat_tmr + dt - 900 ∧
        (tickEvents s b dt).2.length = 1) ∨
     (900 ≤ s.hold_tmr + dt ∧ s.hold_tmr + dt ≠ s.repeat_tmr + dt ∧
        300 ≤ s.repeat_tmr + dt ∧
        (tickEvents s b dt).1.repeat_tmr = s.repeat_tmr + dt - 300 ∧
        (tickEvents s b dt).2.length = 1) ∨
     (900 ≤ s.hold_tmr + dt ∧ s.hold_tmr + dt ≠ s.repeat_tmr + dt ∧
        s.repeat_tmr + dt < 300 ∧
        (tickEvents s b dt).1.repeat_tmr = s.repeat_tmr + dt ∧
        (tickEvents s b dt).2.length = 0)) := by
  have hb0 : b ≠ 0 := by rcases hb with rfl | rfl <;> decide
  have hhi : ∃ c, handle_input b b true = some (c, true) := by
    rcases hb with rfl | rfl
    · exact ⟨SM.UP, by decide⟩
    · exact ⟨SM.DOWN, by decide⟩
  obtain ⟨c, hc⟩ := hhi
  unfold tickEvents updTimers
  rw [hprev, hc]
  simp only [if_neg hb0, ne_eq, not_true_eq_false, if_false,
    if_neg (show ¬¬(b = b) by simp)]
  refine ⟨by trivial, by trivial, ?_⟩
  by_cases h900 : 900 ≤ s.hold_tmr + dt
  · by_cases heq : s.hold_tmr + dt = s.repeat_tmr + dt
    · right; left
      have heq' : s.hold_tmr = s.repeat_tmr := by omega
      have h900' : 900 ≤ s.repeat_tmr + dt := by omega
      refine ⟨h900, heq, ?_, ?_⟩ <;> simp [h900, heq', h900']
    · have heq' : ¬s.hold_tmr = s.repeat_tmr := by omega
      by_cases h300 : 300 ≤ s.repeat_tmr + dt
      · right; right; left
        refine ⟨h900, heq, h300, ?_, ?_⟩ <;> simp [h900, heq', h300]
      · right; right; right
        refine ⟨h900, heq, by omega, ?_, ?_⟩ <;> simp [h900, heq', h300]
  · left
    refine ⟨by omega, ?_, ?_⟩ <;> simp [h900]

theorem runFrom_append (b : Nat) (s : LoopState) (c : Nat)
    (ds1 ds2 : List Nat) :
    runFrom b s c (ds1 ++ ds2)
      = runFrom b (runFrom b s c ds1).1 (runFrom b s c ds1).2 ds2 := by
  induction ds1 generalizing s c with
  | nil => rfl
  | cons dt ds ih =>
    simp only [List.cons_append, runFrom]
    exact ih _ _

theorem runFrom_inv (b : Nat) (hb : b = Pad.UP ∨ b = Pad.DOWN) :
    ∀ (ds : List Nat) (s : LoopState) (c S : Nat), holdInv b S s c →
      holdInv b (S + ds.sum) (runFrom b s c ds).1 (runFrom b s c ds).2 := by
  intro ds
  induction ds with
  | nil =>
    intro s c S h
    simpa [runFrom] using h
  | cons dt ds ih =>
    intro s c S h
    obtain ⟨hp, hh, hc⟩ := h
    obtain ⟨tp, th, tc⟩ := tick_const_cases b hb s hp dt
    have hrun : runFrom b s c (dt :: ds)
        = runFrom b (tickEvents s b dt).1
            (c + (tickEvents s b dt).2.length) ds := rfl
    have hsum : S + (dt :: ds).sum = (S + dt) + ds.sum := by
      simp [List.sum_cons]; omega
    rw [hrun, hsum]
    apply ih
    refine ⟨tp, by omega, ?_⟩
    rcases hc with ⟨hc0, hr, hlt⟩ | ⟨hc1, hS, hr⟩
    · -- still inside the initial delay before this tick
      rcases tc with ⟨t1, t2, t3⟩ | ⟨t1, t2, t3, t4⟩ | ⟨t1, t2, t3, t4, t5⟩ |
        ⟨t1, t2, t3, t4, t5⟩
      · exact Or.inl ⟨by omega, by omega, by omega⟩
      · exact Or.inr ⟨by omega, by omega, by omega⟩
      · exact absurd (show s.hold_tmr + dt = s.repeat_tmr + dt by omega) t2
      · exact absurd (show s.hold_tmr + dt = s.repeat_tmr + dt by omega) t2
    · -- already repeating before this tick
      rcases tc with ⟨t1, t2, t3⟩ | ⟨t1, t2, t3, t4⟩ | ⟨t1, t2, t3, t4, t5⟩ |
        ⟨t1, t2, t3, t4, t5⟩
      · exact absurd t1 (by omega)
      · exact absurd t2 (by omega)
      · exact Or.inr ⟨by omega, by omega, by omega⟩
      · exact Or.inr ⟨by omega, by omega, by omega⟩

theorem holdRun_inv (b : Nat) (hb : b = Pad.UP ∨ b = Pad.DOWN)
    (ds : List Nat) :
    holdInv b ds.sum (holdRun b ds).1 (holdRun b ds).2 := by
  have h0 : holdInv b 0 ⟨b, 0, 0⟩ 0 := ⟨rfl, rfl, Or.inl ⟨rfl, rfl, by omega⟩⟩
  have h := runFrom_inv b hb ds ⟨b, 0, 0⟩ 0 0 h0
  simpa [holdRun] using h

theorem holdRun_snoc (b : Nat) (ds : List Nat) (dt : Nat) :
    holdRun b (ds ++ [dt])
      = ((tickEvents (holdRun b ds).1 b dt).1,
         (holdRun b ds).2 + (tickEvents (holdRun b ds).1 b dt).2.length) := by
  unfold holdRun
  rw [runFrom_append]
  rfl

/-- Claim C5: holding one repeat-eligible button (UP or DOWN) unchanged:
no repeat event fires while the hold accumulator is below the initial
delay of 900 ms; the first repeat fires at the first tick where the
accumulator reaches 900 ms (exactly one event at that tick); a later tick
fires exactly when the repeat accumulator reaches the steady interval of
300 ms, and firing subtracts 300 from the accumulator rather than
resetting it (`repeat_tmr + 900 + 300 * (fired - 1)` always equals the
total held time). -/
theorem C5_hold_repeat (b : Nat) (hb : b = Pad.UP ∨ b = Pad.DOWN) :
    (∀ ds : List Nat, ds.sum < 900 → (holdRun b ds).2 = 0) ∧
    (∀ (ds : List Nat) (dt : Nat), ds.sum < 900 → 900 ≤ ds.sum + dt →
      (holdRun b (ds ++ [dt])).2 = 1) ∧
    (∀ (ds : List Nat) (dt : Nat), 1 ≤ (holdRun b ds).2 →
      (300 ≤ (holdRun b ds).1.repeat_tmr + dt →
        (holdRun b (ds ++ [dt])).2 = (holdRun b ds).2 + 1 ∧
        (holdRun b (ds ++ [dt])).1.repeat_tmr
          = (holdRun b ds).1.repeat_tmr + dt - 300) ∧
      ((holdRun b ds).1.repeat_tmr + dt < 300 →
        (holdRun b (ds ++ [dt])).2 = (holdRun b ds).2)) ∧
    (∀ ds : List Nat, 1 ≤ (holdRun b ds).2 →
      (holdRun b ds).1.repeat_tmr + 900 + 300 * ((holdRun b ds).2 - 1)
        = ds.sum) ∧
    (∀ ds : List Nat, (holdRun b ds).1.hold_tmr = ds.sum) := by
  refine ⟨?_, ?_, ?_, ?_, ?_⟩
  · intro ds hlt
    obtain ⟨hp, hh, hc⟩ := holdRun_inv b hb ds
    rcases hc with ⟨h1, _, _⟩ | ⟨_, h2, _⟩
    · exact h1
    · omega
  · intro ds dt hlt hge
    obtain ⟨hp, hh, hc⟩ := holdRun_inv b hb ds
    obtain ⟨tp, th, tc⟩ := tick_const_cases b hb (holdRun b ds).1 hp dt
    rw [holdRun_snoc]
    rcases hc with ⟨h1, h2, _⟩ | ⟨_, h2, _⟩
    · rcases tc with ⟨t1, t2, t3⟩ | ⟨t1, t2, t3, t4⟩ | ⟨t1, t2, t3, t4, t5⟩ |
        ⟨t1, t2, t3, t4, t5⟩
      · omega
      · simp [t4, h1]
      · exact absurd (show (holdRun b ds).1.hold_tmr + dt
            = (holdRun b ds).1.repeat_tmr + dt by omega) t2
      · exact absurd (show (holdRun b ds).1.hold_tmr + dt
            = (holdRun b ds).1.repeat_tmr + dt by omega) t2
    · omega
  · intro ds dt hge
    obtain ⟨hp, hh, hc⟩ := holdRun_inv b hb ds
    obtain ⟨tp, th, tc⟩ := tick_const_cases b hb (holdRun b ds).1 hp dt
    rcases hc with ⟨h1, _, _⟩ | ⟨h1, h2, h3⟩
    · omega
    constructor
    · intro h300
      rw [holdRun_snoc]
      rcases tc with ⟨t1, t2, t3⟩ | ⟨t1, t2, t3, t4⟩ | ⟨t1, t2, t3, t4, t5⟩ |
        ⟨t1, t2, t3, t4, t5⟩
      · omega
      · exact absurd t2 (by omega)
      · constructor
        · simp [t5]
        · simp [t4]
      · omega
    · intro h300
      rw [holdRun_snoc]
      rcases tc with ⟨t1, t2, t3⟩ | ⟨t1, t2, t3, t4⟩ | ⟨t1, t2, t3, t4, t5⟩ |
        ⟨t1, t2, t3, t4, t5⟩
      · omega
      · exact absurd t2 (by omega)
      · omega
      · simp [t5]
  · intro ds hge
    obtain ⟨hp, hh, hc⟩ := holdRun_inv b hb ds
    rcases hc with ⟨h1, _, _⟩ | ⟨h1, h2, h3⟩
    · omega
    · omega
  · intro ds
    exact (holdRun_inv b hb ds).2.1

/-- Claim C5, witness: holding UP for ticks of 500 then 400 ms reaches
the 900 ms delay exactly at the second tick and fires exactly once. -/
theorem C5_witness : (holdRun Pad.UP ([500] ++ [400])).2 = 1 :=
  (C5_hold_repeat Pad.UP (Or.inl rfl)).2.1 [500] 400 (by decide) (by decide)
